import Mathlib

/-!
# TIPC bearer commands (`tipc/bearer.c`)

A shallow embedding of the bearer sub-tree of the `tipc` tool: the resolvers
that name a bearer, the builders of the netlink requests, and the decoders of
the replies.

Conventions of the embedding:

* a C string is the list of its bytes before the terminating NUL (`CStr`);
* a netlink message is the list of its attributes, a nested attribute holds
  the list of its children; `mnl_attr_nest_start` / `mnl_attr_nest_end` work
  on the flat tail of the message exactly as libmnl does on the buffer;
* every function returns, next to its C return value, the list of effects it
  performed in order (`Event`): diagnostics, output lines, option parsing,
  requests handed to the transport;
* everything the process reads from outside (help flag, option parser,
  transport, resolver) is a field of `Env`.
-/

namespace Tipc

/-- A C string: the bytes before the terminating NUL, one `Char` per byte. -/
abbrev CStr := List Char

/-! ## Constants of the C library and of libmnl -/

/-- The errno value `EINVAL` of `errno.h`. -/
def EINVAL : Int := 22

/-- Address family `AF_INET` of `sys/socket.h`. -/
def AF_INET : Int := 2

/-- Address family `AF_INET6` of `sys/socket.h`. -/
def AF_INET6 : Int := 10

/-- Size of a buffer for a textual IPv6 address, `netinet/in.h`. -/
def INET6_ADDRSTRLEN : Nat := 46

/-- Callback verdict of libmnl: error, stop the run. -/
def MNL_CB_ERROR : Int := -1

/-- Callback verdict of libmnl: go on with the next message. -/
def MNL_CB_OK : Int := 1

/-! ## Constants of the TIPC kernel headers -/

/-- Modelled from the spec: linux/tipc.h is not among the sources; the spec
only says the bearer identifier has "a fixed maximum" length. The number is
the one of the kernel header, the size in bytes of a bearer name buffer,
terminator included. -/
def TIPC_MAX_BEARER_NAME : Nat := 32

/-- Modelled from the spec: operation code "disable a bearer" of
linux/tipc_netlink.h, which is not among the sources. -/
def TIPC_NL_BEARER_DISABLE : Nat := 2

/-- Modelled from the spec: operation code "enable a bearer" of
linux/tipc_netlink.h, which is not among the sources. -/
def TIPC_NL_BEARER_ENABLE : Nat := 3

/-- Modelled from the spec: operation code "get bearers" of
linux/tipc_netlink.h, which is not among the sources. -/
def TIPC_NL_BEARER_GET : Nat := 4

/-- Modelled from the spec: operation code "set a bearer" of
linux/tipc_netlink.h, which is not among the sources. -/
def TIPC_NL_BEARER_SET : Nat := 5

/-- Modelled from the spec: operation code "get the network" of
linux/tipc_netlink.h, which is not among the sources. -/
def TIPC_NL_NET_GET : Nat := 14

/-- Modelled from the spec: code of the top-level "bearer" container
(linux/tipc_netlink.h, not among the sources). -/
def TIPC_NLA_BEARER : Nat := 1

/-- Modelled from the spec: code of the top-level "network" container
(linux/tipc_netlink.h, not among the sources). -/
def TIPC_NLA_NET : Nat := 7

/-- Modelled from the spec: code of the bearer name inside the bearer
container (linux/tipc_netlink.h, not among the sources). -/
def TIPC_NLA_BEARER_NAME : Nat := 1

/-- Modelled from the spec: code of the "properties" container inside the
bearer container (linux/tipc_netlink.h, not among the sources). -/
def TIPC_NLA_BEARER_PROP : Nat := 2

/-- Modelled from the spec: code of the discovery domain inside the bearer
container (linux/tipc_netlink.h, not among the sources). -/
def TIPC_NLA_BEARER_DOMAIN : Nat := 3

/-- Modelled from the spec: code of the UDP sub-container inside the bearer
container (linux/tipc_netlink.h, not among the sources). -/
def TIPC_NLA_BEARER_UDP_OPTS : Nat := 4

/-- Modelled from the spec: code of the local socket address inside the UDP
sub-container (linux/tipc_netlink.h, not among the sources). -/
def TIPC_NLA_UDP_LOCAL : Nat := 1

/-- Modelled from the spec: code of the remote socket address inside the UDP
sub-container (linux/tipc_netlink.h, not among the sources). -/
def TIPC_NLA_UDP_REMOTE : Nat := 2

/-- Modelled from the spec: code of the network identifier inside the network
container (linux/tipc_netlink.h, not among the sources). -/
def TIPC_NLA_NET_ID : Nat := 1

/-- Modelled from the spec: attribute code of the property PRIORITY; the spec
says each property maps 1:1 to a numeric code, the numbers are those of the
enum of linux/tipc_netlink.h (not among the sources). -/
def TIPC_NLA_PROP_PRIO : Nat := 1

/-- Modelled from the spec: attribute code of the property TOLERANCE, see
`TIPC_NLA_PROP_PRIO`. -/
def TIPC_NLA_PROP_TOL : Nat := 2

/-- Modelled from the spec: attribute code of the property WINDOW, see
`TIPC_NLA_PROP_PRIO`. -/
def TIPC_NLA_PROP_WIN : Nat := 3

/-! ## Netlink messages and the libmnl primitives used by `bearer.c` -/

/-- A netlink attribute: its type code and its payload. -/
inductive Attr where
  | u32 (type : Nat) (val : Nat)
  | strz (type : Nat) (val : CStr)
  | raw (type : Nat) (val : List Nat)
  | nest (type : Nat) (attrs : List Attr)

/-- A generic netlink message: the operation code of its header and the
attributes of its payload, in buffer order. -/
structure Nlmsg where
  cmd : Nat
  attrs : List Attr

/-- The type code of an attribute (`mnl_attr_get_type`). -/
def mnl_attr_get_type : Attr → Nat
  | .u32 t _ => t
  | .strz t _ => t
  | .raw t _ => t
  | .nest t _ => t

/-- The payload read as an unsigned 32-bit integer (`mnl_attr_get_u32`). For
an attribute that is not an integer the C code would read the first payload
bytes; the embedding gives 0. -/
def mnl_attr_get_u32 : Attr → Nat
  | .u32 _ v => v
  | _ => 0

/-- The payload read as a string (`mnl_attr_get_str`); empty for an attribute
that is not a string. -/
def mnl_attr_get_str : Attr → CStr
  | .strz _ s => s
  | _ => []

/-- The children of a nested attribute, as `mnl_attr_parse_nested` walks
them; none for an attribute that is not a container. -/
def mnl_attr_nested : Attr → List Attr
  | .nest _ as => as
  | _ => []

/-- Modelled from the spec: `parse_attrs` of tipc/msg.c is not among the
sources. With `mnl_attr_parse` it fills a table indexed by attribute code
("mapping from numeric attribute code to node"); an entry is absent exactly
when no attribute of the list has the code, and a later attribute of the same
code replaces an earlier one. `parse_attrs as t` is the table entry `tb[t]`. -/
def parse_attrs : List Attr → Nat → Option Attr
  | [], _ => none
  | a :: as, t =>
    match parse_attrs as t with
    | some b => some b
    | none => if mnl_attr_get_type a = t then some a else none

/-- Append one attribute at the end of the message (`mnl_attr_put`). -/
def mnl_attr_put (nlh : Nlmsg) (a : Attr) : Nlmsg :=
  { nlh with attrs := nlh.attrs ++ [a] }

/-- Conversion of a C `int` to `uint32_t`. -/
def to_u32 (v : Int) : Nat := (v % 4294967296).toNat

/-- Append an unsigned 32-bit attribute (`mnl_attr_put_u32`); the argument is
the C `int` the callers pass, converted to `uint32_t`. -/
def mnl_attr_put_u32 (nlh : Nlmsg) (type : Nat) (v : Int) : Nlmsg :=
  mnl_attr_put nlh (.u32 type (to_u32 v))

/-- Append a NUL-terminated string attribute (`mnl_attr_put_strz`). -/
def mnl_attr_put_strz (nlh : Nlmsg) (type : Nat) (s : CStr) : Nlmsg :=
  mnl_attr_put nlh (.strz type s)

/-- Open a container at the end of the message (`mnl_attr_nest_start`): the
header is appended with nothing in it yet; the handle is its position. -/
def mnl_attr_nest_start (nlh : Nlmsg) (type : Nat) : Nlmsg × Nat :=
  (mnl_attr_put nlh (.nest type []), nlh.attrs.length)

/-- Close a container (`mnl_attr_nest_end`): its length is set to reach the
end of the message, so everything appended since `mnl_attr_nest_start`
becomes its content. -/
def mnl_attr_nest_end (nlh : Nlmsg) (start : Nat) : Nlmsg :=
  match nlh.attrs.drop start with
  | .nest t inner :: rest =>
    { nlh with attrs := nlh.attrs.take start ++ [.nest t (inner ++ rest)] }
  | _ => nlh

/-! ## C library: `snprintf`, `atoi` -/

/-- The string `snprintf(buf, size, ...)` leaves in `buf`, given the full
formatted text: at most `size - 1` bytes of it (then the terminator). -/
def snprintf (size : Nat) (text : CStr) : CStr := text.take (size - 1)

/-- The conversion `%u` of a 32-bit value: its decimal digits. -/
def fmt_u (v : Nat) : CStr := (Nat.repr (v % 4294967296)).toList

/-- The C predicate `isspace` in the C locale. -/
def isspace (c : Char) : Bool := c.toNat = 32 || (9 ≤ c.toNat && c.toNat ≤ 13)

/-- The value of the leading decimal digits of a string, continuing from the
value `acc` of the digits already read. -/
def strtol_digits : CStr → Nat → Nat
  | [], acc => acc
  | c :: cs, acc =>
    if c.isDigit then strtol_digits cs (acc * 10 + (c.toNat - 48)) else acc

/-- The function `strtol(s, NULL, 10)` on a 64-bit `long`: leading white
space, an optional sign, decimal digits; the result saturates at `LONG_MIN`
and `LONG_MAX`. -/
def strtol (s : CStr) : Int :=
  match s.dropWhile isspace with
  | '-' :: r => max (-9223372036854775808) (-(strtol_digits r 0 : Int))
  | '+' :: r => min 9223372036854775807 (strtol_digits r 0 : Int)
  | r => min 9223372036854775807 (strtol_digits r 0 : Int)

/-- The function `atoi` as glibc defines it, `(int) strtol(s, NULL, 10)`: the
`long` is reduced to a 32-bit two's complement `int`. -/
def atoi (s : CStr) : Int := (strtol s + 2147483648) % 4294967296 - 2147483648

/-- Arithmetic right shift `x >> k` of a 32-bit two's complement `int`; the
`int` is given, and the result returned, as its 32-bit pattern. -/
def sar32 (x k : Nat) : Nat :=
  if x % 4294967296 < 2147483648 then (x % 4294967296) >>> k
  else ((x % 4294967296) >>> k) ||| (4294967295 - (4294967295 >>> k))

/-! ## Options, argument cursor, command nodes (`cmdl.h`) -/

/-- Modelled from the spec: `struct opt` of tipc/cmdl.h is not among the
sources. An option is a key from the set a command declares and an optional
value, unset until parsing fills it in. -/
structure Opt where
  key : CStr
  val : Option CStr

/-- Modelled from the spec: `struct cmdl` of tipc/cmdl.h is not among the
sources. The argument cursor: the tokens, their count, and the index of the
next token to read. -/
structure Cmdl where
  argc : Nat
  optind : Nat
  argv : List CStr

/-- Modelled from the spec: `struct cmd` of tipc/cmdl.h is not among the
sources. A command node as its handler sees it: its name and its help
producer (named by the C function it points to). -/
structure Cmd where
  cmd : CStr
  help : String

/-- Modelled from the spec: `get_opt` of tipc/cmdl.c is not among the
sources. "A command handler queries a specific option by name": the value of
the option with the key when it has been supplied, nothing when the key is
not declared or the option is unset. -/
def get_opt : List Opt → CStr → Option CStr
  | [], _ => none
  | o :: os, key =>
    if o.key = key then
      match o.val with
      | some v => some v
      | none => get_opt os key
    else get_opt os key

/-- Modelled from the spec: `shift_cmdl` of tipc/cmdl.c is not among the
sources. "Consume" of the argument cursor: the next token, if one remains,
and the cursor moved past it. -/
def shift_cmdl (cmdl : Cmdl) : Option CStr × Cmdl :=
  if cmdl.optind < cmdl.argc then
    (cmdl.argv.get? cmdl.optind, { cmdl with optind := cmdl.optind + 1 })
  else (none, cmdl)

/-- Store a value against the declared option with the given key; nothing
when no declared option has the key. -/
def set_opt : List Opt → CStr → Option CStr → Option (List Opt)
  | [], _, _ => none
  | o :: os, key, v =>
    if o.key = key then some ({ o with val := v } :: os)
    else (set_opt os key v).map (fun os1 => o :: os1)

/-- The scan of `parse_opts` over the remaining tokens: the number of options
read and the filled table, or nothing at the first key that is not declared. -/
def parse_opts_scan : List CStr → List Opt → Nat → Option (Nat × List Opt)
  | [], opts, cnt => some (cnt, opts)
  | [k], opts, cnt => (set_opt opts k none).map (fun os1 => (cnt + 1, os1))
  | k :: v :: rest, opts, cnt =>
    match set_opt opts k (some v) with
    | none => none
    | some os1 => parse_opts_scan rest os1 (cnt + 1)

/-- Modelled from the spec: `parse_opts` of tipc/cmdl.c is not among the
sources. "Repeatedly consume a key token and its following value token,
storing the value against the matching declared option; stop at end of input
or first unrecognized key (error)." The result is the number of options read,
or `-EINVAL`, with the table and the cursor after the scan. -/
def parse_opts (opts : List Opt) (cmdl : Cmdl) : Int × List Opt × Cmdl :=
  match parse_opts_scan ((cmdl.argv.take cmdl.argc).drop cmdl.optind) opts 0 with
  | none => (-EINVAL, opts, cmdl)
  | some (cnt, os1) => ((cnt : Int), os1, { cmdl with optind := cmdl.optind + 2 * cnt })

/-! ## Effects and environment -/

/-- An effect of a command, in the order the C code performs it. -/
inductive Event where
  /-- A diagnostic written to stderr, named by its format string. -/
  | stderr (fmt : String)
  /-- A help producer ran, named by the C function. -/
  | help (producer : String)
  /-- A line written to stdout, with its exact text. -/
  | stdout (text : CStr)
  /-- The option parser `parse_opts` ran. -/
  | parse_opts
  /-- The request handed to `msg_doit`. -/
  | doit (nlh : Nlmsg)
  /-- The request handed to `msg_dumpit`. -/
  | dumpit (nlh : Nlmsg)

/-- A resolved socket address (`struct addrinfo`): its family and the bytes
of the socket address. -/
structure AddrInfo where
  ai_family : Int
  ai_addr : List Nat

/-- What the transport delivers for one request: the reply messages in
arrival order, and the status with which the exchange ends once they are
consumed (0 at a normal end, negative on a transport failure). -/
structure Exchange where
  replies : List Nlmsg
  final : Int

/-- Everything `bearer.c` reads from outside itself. -/
structure Env where
  /-- The process-wide flag `help_flag` of cmdl.h. -/
  help_flag : Bool
  /-- The option parser `parse_opts` of cmdl.c: return value, table and
  cursor after the call. -/
  parse_opts : List Opt → Cmdl → Int × List Opt × Cmdl
  /-- Whether `msg_init` succeeds for an operation code. -/
  msg_init_ok : Nat → Bool
  /-- The kernel behind the transport: the exchange a request gets, by
  pattern (`true` for a dump). -/
  kernel : Bool → Nlmsg → Exchange
  /-- The resolver `getaddrinfo(node, service, &hints, &res)` with the fixed
  hints of `enable_udp_bearer`: return value and first result. -/
  getaddrinfo : CStr → CStr → Int × AddrInfo
  /-- The indeterminate content of the uninitialised local `netid` of
  `generate_multicast`, as a 32-bit pattern. -/
  netid_garbage : Nat

/-- Modelled from the spec: `msg_init` of tipc/msg.c is not among the
sources. "open_request(buffer, operation_code)": an empty request carrying
the operation code, or nothing on failure. -/
def msg_init (env : Env) (cmd : Nat) : Option Nlmsg :=
  if env.msg_init_ok cmd then some { cmd := cmd, attrs := [] } else none

/-- The run of a decoder callback over the inbound messages: once per
message, in order, "stops on callback-reported error or stream end". The
result is the status, the callback's context and the callback's effects. -/
def mnl_cb_run {σ : Type} (cb : Nlmsg → σ → Int × σ × List Event) :
    List Nlmsg → Int → σ → Int × σ × List Event
  | [], final, data => (final, data, [])
  | m :: ms, final, data =>
    let r := cb m data
    if r.1 ≤ 0 then r
    else
      let r1 := mnl_cb_run cb ms final r.2.1
      (r1.1, r1.2.1, r.2.2 ++ r1.2.2)

/-- The callback `NULL`: every data message is accepted. -/
def cb_null : Nlmsg → Unit → Int × Unit × List Event :=
  fun _ u => (MNL_CB_OK, u, [])

/-- Modelled from the spec: `msg_doit` of tipc/msg.c is not among the
sources. "send_request_await_reply(request_handle, decoder_callback,
decoder_context) → status": the request goes out, the callback runs over the
reply. -/
def msg_doit {σ : Type} (env : Env) (nlh : Nlmsg)
    (cb : Nlmsg → σ → Int × σ × List Event) (data : σ) : Int × σ × List Event :=
  let r := mnl_cb_run cb (env.kernel false nlh).replies (env.kernel false nlh).final data
  (r.1, r.2.1, Event.doit nlh :: r.2.2)

/-- Modelled from the spec: `msg_dumpit` of tipc/msg.c is not among the
sources. "send_request_await_stream(...) → status (invokes the callback once
per inbound message, stops on callback-reported error or stream end)". -/
def msg_dumpit {σ : Type} (env : Env) (nlh : Nlmsg)
    (cb : Nlmsg → σ → Int × σ × List Event) (data : σ) : Int × σ × List Event :=
  let r := mnl_cb_run cb (env.kernel true nlh).replies (env.kernel true nlh).final data
  (r.1, r.2.1, Event.dumpit nlh :: r.2.2)

/-- The requests among a list of effects, in order: what reached `msg_doit`
or `msg_dumpit`. -/
def requests : List Event → List Nlmsg
  | [] => []
  | .doit nlh :: es => nlh :: requests es
  | .dumpit nlh :: es => nlh :: requests es
  | _ :: es => requests es

/-- The requests that reached `msg_doit` among a list of effects. -/
def doit_requests : List Event → List Nlmsg
  | [] => []
  | .doit nlh :: es => nlh :: doit_requests es
  | _ :: es => doit_requests es

/-- The lines written to stdout among a list of effects, in order. -/
def stdout_lines : List Event → List CStr
  | [] => []
  | .stdout l :: es => l :: stdout_lines es
  | _ :: es => stdout_lines es

/-- Whether option parsing ran among a list of effects. -/
def parsed_opts : List Event → Bool
  | [] => false
  | .parse_opts :: _ => true
  | _ :: es => parsed_opts es

/-- The diagnostics written to stderr among a list of effects, in order. -/
def stderr_lines : List Event → List String
  | [] => []
  | .stderr l :: es => l :: stderr_lines es
  | _ :: es => stderr_lines es

/-! ## Reading a reply -/

/-- The bearer name a reply message carries: the string of the name attribute
of its bearer container; nothing when the message lacks the bearer container
or the container lacks the name attribute. -/
def bearer_name (nlh : Nlmsg) : Option CStr :=
  match parse_attrs nlh.attrs TIPC_NLA_BEARER with
  | none => none
  | some bearer =>
    match parse_attrs (mnl_attr_nested bearer) TIPC_NLA_BEARER_NAME with
    | none => none
    | some a => some (mnl_attr_get_str a)

/-- The media selection of a parsed option table: media eth with device `v`,
or media udp with name `v`. -/
def media_selected (opts : List Opt) (m v : CStr) : Prop :=
  (m = "eth".toList ∧ get_opt opts "media".toList = some "eth".toList ∧
    get_opt opts "device".toList = some v) ∨
  (m = "udp".toList ∧ get_opt opts "media".toList = some "udp".toList ∧
    get_opt opts "name".toList = some v)

instance (opts : List Opt) (m v : CStr) : Decidable (media_selected opts m v) := by
  unfold media_selected
  infer_instance

/-- The value of a property a request carries: the unsigned integer of the
attribute with the property's code in the properties container of the bearer
container; nothing when a level is missing. -/
def request_prop (prop : Nat) (nlh : Nlmsg) : Option Nat :=
  match parse_attrs nlh.attrs TIPC_NLA_BEARER with
  | none => none
  | some bearer =>
    match parse_attrs (mnl_attr_nested bearer) TIPC_NLA_BEARER_PROP with
    | none => none
    | some props =>
      match parse_attrs (mnl_attr_nested props) prop with
      | none => none
      | some a => some (mnl_attr_get_u32 a)

/-- A reply to a bearer query that carries the given bearer name. -/
def Nlmsg.named (name : CStr) : Nlmsg :=
  ⟨TIPC_NL_BEARER_GET, [.nest TIPC_NLA_BEARER [.strz TIPC_NLA_BEARER_NAME name]]⟩

/-! ## `bearer.c`: resolvers -/

/-- The function `enable_l2_bearer`: the L2 resolver of the enable path. -/
def enable_l2_bearer (nlh : Nlmsg) (opts : List Opt) : Int × Nlmsg × List Event :=
  match get_opt opts "device".toList with
  | none => (-EINVAL, nlh, [.stderr "error: missing bearer device\n"])
  | some val =>
    let id := snprintf TIPC_MAX_BEARER_NAME ("eth:".toList ++ val)
    (0, mnl_attr_put_strz nlh TIPC_NLA_BEARER_NAME id, [])

/-- The callback `get_netid_cb`: decodes the network identifier of a reply
into `*netid`, a 32-bit `int` kept as its bit pattern. -/
def get_netid_cb (nlh : Nlmsg) (netid : Nat) : Int × Nat × List Event :=
  match parse_attrs nlh.attrs TIPC_NLA_NET with
  | none => (MNL_CB_ERROR, netid, [])
  | some info =>
    match parse_attrs (mnl_attr_nested info) TIPC_NLA_NET_ID with
    | none => (MNL_CB_ERROR, netid, [])
    | some a => (MNL_CB_OK, mnl_attr_get_u32 a % 4294967296, [])

/-- The function `generate_multicast`: the status and the text left in `buf`
(empty when nothing was written). -/
def generate_multicast (env : Env) (af : Int) (bufsize : Nat) : Int × CStr × List Event :=
  match msg_init env TIPC_NL_NET_GET with
  | none => (-1, [], [.stderr "error, message initialization failed\n"])
  | some nlh =>
    let r := msg_dumpit env nlh get_netid_cb env.netid_garbage
    if r.1 ≠ 0 then
      (-EINVAL, [], r.2.2 ++ [.stderr "error, failed to fetch TIPC network id from kernel\n"])
    else if af = AF_INET then
      (0, snprintf bufsize ("228.0.".toList ++ fmt_u (sar32 r.2.1 8 &&& 0xFF)
            ++ ".".toList ++ fmt_u (r.2.1 &&& 0xFF)), r.2.2)
    else
      (0, snprintf bufsize ("ff02::".toList ++ fmt_u r.2.1), r.2.2)

/-- The function `enable_udp_bearer`: the UDP resolver of the enable path. -/
def enable_udp_bearer (env : Env) (nlh : Nlmsg) (opts : List Opt) :
    Int × Nlmsg × List Event :=
  if env.help_flag then (-EINVAL, nlh, [.help "cmd_bearer_enable_udp_help"])
  else
    match get_opt opts "name".toList with
    | none =>
      (-EINVAL, nlh, [.stderr "error, udp bearer name missing\n",
        .help "cmd_bearer_enable_udp_help"])
    | some nameval =>
      let name := snprintf TIPC_MAX_BEARER_NAME ("udp:".toList ++ nameval)
      match get_opt opts "localip".toList with
      | none =>
        (-EINVAL, nlh, [.stderr "error, udp bearer localip missing\n",
          .help "cmd_bearer_enable_udp_help"])
      | some locip =>
        let locport := (get_opt opts "localport".toList).getD "6118".toList
        let remport := (get_opt opts "remoteport".toList).getD "6118".toList
        let loc := env.getaddrinfo locip locport
        if loc.1 ≠ 0 then (loc.1, nlh, [.stderr "UDP local address error: %s\n"])
        else
          let gen : Int × CStr × List Event :=
            match get_opt opts "remoteip".toList with
            | some v => (0, v, [])
            | none => generate_multicast env loc.2.ai_family INET6_ADDRSTRLEN
          if gen.1 ≠ 0 then
            (-EINVAL, nlh, gen.2.2 ++ [.stderr "Failed to generate multicast address\n"])
          else
            let rem := env.getaddrinfo gen.2.1 remport
            if rem.1 ≠ 0 then
              (rem.1, nlh, gen.2.2 ++ [.stderr "UDP remote address error: %s\n"])
            else if rem.2.ai_family ≠ loc.2.ai_family then
              (-EINVAL, nlh, gen.2.2 ++ [.stderr "UDP local and remote AF mismatch\n"])
            else
              let nlh1 := mnl_attr_put_strz nlh TIPC_NLA_BEARER_NAME name
              let nest := mnl_attr_nest_start nlh1 TIPC_NLA_BEARER_UDP_OPTS
              let nlh2 := mnl_attr_put nest.1 (.raw TIPC_NLA_UDP_LOCAL loc.2.ai_addr)
              let nlh3 := mnl_attr_put nlh2 (.raw TIPC_NLA_UDP_REMOTE rem.2.ai_addr)
              (0, mnl_attr_nest_end nlh3 nest.2, gen.2.2)

/-- The function `add_l2_bearer`: the L2 resolver of the disable, set and get
paths. -/
def add_l2_bearer (nlh : Nlmsg) (opts : List Opt) : Int × Nlmsg × List Event :=
  match get_opt opts "device".toList with
  | none => (-EINVAL, nlh, [.stderr "error: missing bearer device\n"])
  | some val =>
    let id := snprintf TIPC_MAX_BEARER_NAME ("eth:".toList ++ val)
    (0, mnl_attr_put_strz nlh TIPC_NLA_BEARER_NAME id, [])

/-- The function `add_udp_bearer`: the UDP resolver of the disable, set and
get paths. -/
def add_udp_bearer (nlh : Nlmsg) (opts : List Opt) : Int × Nlmsg × List Event :=
  match get_opt opts "name".toList with
  | none => (-EINVAL, nlh, [.stderr "error: missing bearer name\n"])
  | some val =>
    let id := snprintf TIPC_MAX_BEARER_NAME ("udp:".toList ++ val)
    (0, mnl_attr_put_strz nlh TIPC_NLA_BEARER_NAME id, [])

/-! ## `bearer.c`: leaf commands

Each returns the C return value, the argument cursor as the command leaves
it, and its effects. A step that can return early is a triple whose status is
nonzero exactly when the C code returns there. -/

/-- The option table of `cmd_bearer_enable`. -/
def enable_opts : List Opt :=
  [⟨"device".toList, none⟩, ⟨"domain".toList, none⟩, ⟨"localip".toList, none⟩,
   ⟨"localport".toList, none⟩, ⟨"media".toList, none⟩, ⟨"name".toList, none⟩,
   ⟨"priority".toList, none⟩, ⟨"remoteip".toList, none⟩, ⟨"remoteport".toList, none⟩]

/-- The option table of `cmd_bearer_disable`. -/
def disable_opts : List Opt :=
  [⟨"device".toList, none⟩, ⟨"name".toList, none⟩, ⟨"media".toList, none⟩]

/-- The option table of `cmd_bearer_set_prop` and `cmd_bearer_get_prop`. -/
def prop_opts : List Opt :=
  [⟨"device".toList, none⟩, ⟨"media".toList, none⟩, ⟨"name".toList, none⟩]

/-- The function `cmd_bearer_enable`. -/
def cmd_bearer_enable (env : Env) (cmd : Cmd) (cmdl : Cmdl) : Int × Cmdl × List Event :=
  let p := env.parse_opts enable_opts cmdl
  if p.1 < 0 then
    (-EINVAL, p.2.2, .parse_opts :: (if env.help_flag then [.help cmd.help] else []))
  else
    match get_opt p.2.1 "media".toList with
    | none =>
      (-EINVAL, p.2.2, [.parse_opts,
        if env.help_flag then .help cmd.help else .stderr "error, missing bearer media\n"])
    | some media =>
      match msg_init env TIPC_NL_BEARER_ENABLE with
      | none => (-1, p.2.2, [.parse_opts, .stderr "error: message initialisation failed\n"])
      | some nlh0 =>
        let nest := mnl_attr_nest_start nlh0 TIPC_NLA_BEARER
        let nlh1 :=
          match get_opt p.2.1 "domain".toList with
          | some v => mnl_attr_put_u32 nest.1 TIPC_NLA_BEARER_DOMAIN (atoi v)
          | none => nest.1
        let nlh2 :=
          match get_opt p.2.1 "priority".toList with
          | some v =>
            let props := mnl_attr_nest_start nlh1 TIPC_NLA_BEARER_PROP
            mnl_attr_nest_end (mnl_attr_put_u32 props.1 TIPC_NLA_PROP_PRIO (atoi v)) props.2
          | none => nlh1
        let r : Int × Nlmsg × List Event :=
          if media = "udp".toList then
            if env.help_flag then (-EINVAL, nlh2, [.help "cmd_bearer_enable_udp_help"])
            else enable_udp_bearer env nlh2 p.2.1
          else if media = "eth".toList ∨ media = "udp".toList then
            if env.help_flag then (-EINVAL, nlh2, [.help "cmd_bearer_enable_l2_help"])
            else enable_l2_bearer nlh2 p.2.1
          else (-EINVAL, nlh2, [.stderr "error, invalid media type \"%s\"\n"])
        if r.1 ≠ 0 then (r.1, p.2.2, .parse_opts :: r.2.2)
        else
          let d := msg_doit env (mnl_attr_nest_end r.2.1 nest.2) cb_null ()
          (d.1, p.2.2, .parse_opts :: (r.2.2 ++ d.2.2))

/-- The function `cmd_bearer_disable`. -/
def cmd_bearer_disable (env : Env) (cmd : Cmd) (cmdl : Cmdl) : Int × Cmdl × List Event :=
  let p := env.parse_opts disable_opts cmdl
  if p.1 < 0 then
    (-EINVAL, p.2.2, .parse_opts :: (if env.help_flag then [.help cmd.help] else []))
  else
    match get_opt p.2.1 "media".toList with
    | none =>
      (-EINVAL, p.2.2, [.parse_opts,
        if env.help_flag then .help cmd.help else .stderr "error, missing bearer media\n"])
    | some media =>
      match msg_init env TIPC_NL_BEARER_DISABLE with
      | none => (-1, p.2.2, [.parse_opts, .stderr "error, message initialisation failed\n"])
      | some nlh0 =>
        let nest := mnl_attr_nest_start nlh0 TIPC_NLA_BEARER
        let r : Int × Nlmsg × List Event :=
          if media = "udp".toList then
            if env.help_flag then (-EINVAL, nest.1, [.help "cmd_bearer_disable_udp_help"])
            else add_udp_bearer nest.1 p.2.1
          else if media = "eth".toList ∨ media = "udp".toList then
            if env.help_flag then (-EINVAL, nest.1, [.help "cmd_bearer_disable_l2_help"])
            else add_l2_bearer nest.1 p.2.1
          else (-EINVAL, nest.1, [.stderr "error, invalid media type \"%s\"\n"])
        if r.1 ≠ 0 then (r.1, p.2.2, .parse_opts :: r.2.2)
        else
          let d := msg_doit env (mnl_attr_nest_end r.2.1 nest.2) cb_null ()
          (d.1, p.2.2, .parse_opts :: (r.2.2 ++ d.2.2))

/-- The chain of `strcmp` on `cmd->cmd` that opens `cmd_bearer_set_prop` and
`cmd_bearer_get_prop`: the attribute code of the property the leaf command
names, nothing for any other name (the C code returns `-EINVAL`). -/
def prop_of_cmd (cmd : Cmd) : Option Nat :=
  if cmd.cmd = "priority".toList then some TIPC_NLA_PROP_PRIO
  else if cmd.cmd = "tolerance".toList then some TIPC_NLA_PROP_TOL
  else if cmd.cmd = "window".toList then some TIPC_NLA_PROP_WIN
  else none

/-- The function `cmd_bearer_set_prop`. -/
def cmd_bearer_set_prop (env : Env) (cmd : Cmd) (cmdl : Cmdl) : Int × Cmdl × List Event :=
  match prop_of_cmd cmd with
  | none => (-EINVAL, cmdl, [])
  | some prop =>
    if env.help_flag then (-EINVAL, cmdl, [.help cmd.help])
    else if cmdl.optind ≥ cmdl.argc then (-EINVAL, cmdl, [.stderr "error, missing value\n"])
    else
      let sh := shift_cmdl cmdl
      let val := atoi (sh.1.getD [])
      let p := env.parse_opts prop_opts sh.2
      if p.1 < 0 then (-EINVAL, p.2.2, [.parse_opts])
      else
        match msg_init env TIPC_NL_BEARER_SET with
        | none => (-1, p.2.2, [.parse_opts, .stderr "error, message initialisation failed\n"])
        | some nlh0 =>
          let attrs := mnl_attr_nest_start nlh0 TIPC_NLA_BEARER
          let props := mnl_attr_nest_start attrs.1 TIPC_NLA_BEARER_PROP
          let nlh1 := mnl_attr_nest_end (mnl_attr_put_u32 props.1 prop val) props.2
          match get_opt p.2.1 "media".toList with
          | none => (-EINVAL, p.2.2, [.parse_opts, .stderr "error, missing media\n"])
          | some media =>
            let r : Int × Nlmsg × List Event :=
              if media = "udp".toList then
                if env.help_flag then (-EINVAL, nlh1, [.help "cmd_bearer_set_udp_help"])
                else add_udp_bearer nlh1 p.2.1
              else if media = "eth".toList ∨ media = "udp".toList then
                if env.help_flag then (-EINVAL, nlh1, [.help "cmd_bearer_set_l2_help"])
                else add_l2_bearer nlh1 p.2.1
              else (-EINVAL, nlh1, [.stderr "error, invalid media type \"%s\"\n"])
            if r.1 ≠ 0 then (r.1, p.2.2, .parse_opts :: r.2.2)
            else
              let d := msg_doit env (mnl_attr_nest_end r.2.1 attrs.2) cb_null ()
              (d.1, p.2.2, .parse_opts :: (r.2.2 ++ d.2.2))

/-- The callback `bearer_get_cb`; `prop` is the attribute code `*data`. -/
def bearer_get_cb (prop : Nat) (nlh : Nlmsg) (u : Unit) : Int × Unit × List Event :=
  match parse_attrs nlh.attrs TIPC_NLA_BEARER with
  | none => (MNL_CB_ERROR, u, [])
  | some info =>
    match parse_attrs (mnl_attr_nested info) TIPC_NLA_BEARER_PROP with
    | none => (MNL_CB_ERROR, u, [])
    | some attrs =>
      match parse_attrs (mnl_attr_nested attrs) prop with
      | none => (MNL_CB_ERROR, u, [])
      | some a => (MNL_CB_OK, u, [.stdout (fmt_u (mnl_attr_get_u32 a) ++ "\n".toList)])

/-- The function `cmd_bearer_get_prop`. -/
def cmd_bearer_get_prop (env : Env) (cmd : Cmd) (cmdl : Cmdl) : Int × Cmdl × List Event :=
  match prop_of_cmd cmd with
  | none => (-EINVAL, cmdl, [])
  | some prop =>
    if env.help_flag then (-EINVAL, cmdl, [.help cmd.help])
    else
      let p := env.parse_opts prop_opts cmdl
      if p.1 < 0 then (-EINVAL, p.2.2, [.parse_opts])
      else
        match msg_init env TIPC_NL_BEARER_GET with
        | none => (-1, p.2.2, [.parse_opts, .stderr "error, message initialisation failed\n"])
        | some nlh0 =>
          match get_opt p.2.1 "media".toList with
          | none => (-EINVAL, p.2.2, [.parse_opts, .stderr "error, missing media\n"])
          | some media =>
            let attrs := mnl_attr_nest_start nlh0 TIPC_NLA_BEARER
            let r : Int × Nlmsg × List Event :=
              if media = "udp".toList then
                if env.help_flag then (-EINVAL, attrs.1, [.help "cmd_bearer_get_udp_help"])
                else add_udp_bearer attrs.1 p.2.1
              else if media = "eth".toList ∨ media = "udp".toList then
                if env.help_flag then (-EINVAL, attrs.1, [.help "cmd_bearer_get_l2_help"])
                else add_l2_bearer attrs.1 p.2.1
              else (-EINVAL, attrs.1, [.stderr "error, invalid media type \"%s\"\n"])
            if r.1 ≠ 0 then (r.1, p.2.2, .parse_opts :: r.2.2)
            else
              let d := msg_doit env (mnl_attr_nest_end r.2.1 attrs.2) (bearer_get_cb prop) ()
              (d.1, p.2.2, .parse_opts :: (r.2.2 ++ d.2.2))

/-- The callback `bearer_list_cb`. -/
def bearer_list_cb (nlh : Nlmsg) (u : Unit) : Int × Unit × List Event :=
  match parse_attrs nlh.attrs TIPC_NLA_BEARER with
  | none => (MNL_CB_ERROR, u, [.stderr "No bearer in netlink response\n"])
  | some info =>
    match parse_attrs (mnl_attr_nested info) TIPC_NLA_BEARER_NAME with
    | none => (MNL_CB_ERROR, u, [.stderr "Bearer name missing in netlink response\n"])
    | some a => (MNL_CB_OK, u, [.stdout (mnl_attr_get_str a ++ "\n".toList)])

/-- The function `cmd_bearer_list`. -/
def cmd_bearer_list (env : Env) (_cmd : Cmd) (cmdl : Cmdl) : Int × Cmdl × List Event :=
  if env.help_flag then (-EINVAL, cmdl, [.stderr "Usage: %s bearer list\n"])
  else
    match msg_init env TIPC_NL_BEARER_GET with
    | none => (-1, cmdl, [.stderr "error, message initialisation failed\n"])
    | some nlh =>
      let d := msg_dumpit env nlh bearer_list_cb ()
      (d.1, cmdl, d.2.2)

/-! ## A concrete environment -/

/-- A kernel that answers the network query with network identifier 7 and
every other request with an empty, normally ended exchange; a resolver that
takes a node with a colon for IPv6 and any other for IPv4; the option parser
of the spec; help not requested. -/
def Env.sample : Env where
  help_flag := false
  parse_opts := Tipc.parse_opts
  msg_init_ok := fun _ => true
  kernel := fun _ nlh =>
    if nlh.cmd = TIPC_NL_NET_GET then
      ⟨[⟨TIPC_NL_NET_GET, [.nest TIPC_NLA_NET [.u32 TIPC_NLA_NET_ID 7]]⟩], 0⟩
    else ⟨[], 0⟩
  getaddrinfo := fun node _ => (0, ⟨if ':' ∈ node then AF_INET6 else AF_INET, []⟩)
  netid_garbage := 0

/-- The sample environment with help requested. -/
def Env.sample_help : Env := { Env.sample with help_flag := true }

/-- An argument cursor at the first of the given tokens. -/
def Cmdl.of (argv : List CStr) : Cmdl := ⟨argv.length, 0, argv⟩


/-! ## Lemmas on the message builder -/

/-- Closing a container: when the message is `pre`, the open header, then
`body`, the container takes `body` as its content. -/
theorem mnl_attr_nest_end_eq (nlh : Nlmsg) (pre body : List Attr) (t : Nat)
    (h : nlh.attrs = pre ++ Attr.nest t [] :: body) :
    mnl_attr_nest_end nlh pre.length = ⟨nlh.cmd, pre ++ [Attr.nest t body]⟩ := by
  unfold mnl_attr_nest_end
  rw [h]
  simp

/-- A string that fits its buffer is written whole. -/
theorem snprintf_fits (size : Nat) (text : CStr) (h : text.length < size) :
    snprintf size text = text := by
  unfold snprintf
  exact List.take_of_length_le (by omega)

/-- The shape of the message after the name and the UDP container have been
appended and the container closed. -/
theorem udp_opts_shape (nlh : Nlmsg) (name : CStr) (l r : List Nat) :
    mnl_attr_nest_end
      (mnl_attr_put
        (mnl_attr_put
          (mnl_attr_nest_start (mnl_attr_put_strz nlh TIPC_NLA_BEARER_NAME name)
            TIPC_NLA_BEARER_UDP_OPTS).1
          (Attr.raw TIPC_NLA_UDP_LOCAL l))
        (Attr.raw TIPC_NLA_UDP_REMOTE r))
      (mnl_attr_nest_start (mnl_attr_put_strz nlh TIPC_NLA_BEARER_NAME name)
        TIPC_NLA_BEARER_UDP_OPTS).2
    = ⟨nlh.cmd, nlh.attrs ++ [Attr.strz TIPC_NLA_BEARER_NAME name,
        Attr.nest TIPC_NLA_BEARER_UDP_OPTS
          [Attr.raw TIPC_NLA_UDP_LOCAL l, Attr.raw TIPC_NLA_UDP_REMOTE r]]⟩ := by
  simp only [mnl_attr_put_strz, mnl_attr_nest_start, mnl_attr_put]
  rw [mnl_attr_nest_end_eq _ (nlh.attrs ++ [Attr.strz TIPC_NLA_BEARER_NAME name])
    [Attr.raw TIPC_NLA_UDP_LOCAL l, Attr.raw TIPC_NLA_UDP_REMOTE r] TIPC_NLA_BEARER_UDP_OPTS
    (by simp)]
  simp

/-- With no callback every reply is accepted: the exchange ends with the
status of the transport and nothing is printed. -/
theorem mnl_cb_run_cb_null (msgs : List Nlmsg) (final : Int) :
    mnl_cb_run cb_null msgs final () = (final, (), []) := by
  induction msgs with
  | nil => rfl
  | cons m ms ih =>
    unfold mnl_cb_run
    have hgt : ¬ ((cb_null m ()).1 ≤ 0) := by
      show ¬ (MNL_CB_OK ≤ 0)
      decide
    simp only [hgt, if_false, ih]
    rfl

/-- The effect of `msg_doit` with no callback: the request is sent, the
status is the one the exchange ends with. -/
theorem msg_doit_cb_null (env : Env) (nlh : Nlmsg) :
    msg_doit env nlh cb_null () = ((env.kernel false nlh).final, (), [Event.doit nlh]) := by
  unfold msg_doit
  rw [mnl_cb_run_cb_null]

/-! ## Lemmas on the UDP resolver -/

/-- The callback `get_netid_cb` has no effect beyond storing the identifier. -/
theorem mnl_cb_run_get_netid_events (msgs : List Nlmsg) (final : Int) :
    ∀ netid : Nat, (mnl_cb_run get_netid_cb msgs final netid).2.2 = [] := by
  induction msgs with
  | nil => intro netid; rfl
  | cons m ms ih =>
    intro netid
    have hev : (get_netid_cb m netid).2.2 = [] := by
      unfold get_netid_cb
      split
      · rfl
      · split <;> rfl
    unfold mnl_cb_run
    by_cases h : (get_netid_cb m netid).1 ≤ 0 <;> simp [h, hev, ih]

theorem doit_requests_append (a b : List Event) :
    doit_requests (a ++ b) = doit_requests a ++ doit_requests b := by
  induction a with
  | nil => rfl
  | cons e es ih => cases e <;> simp [doit_requests, ih]

/-- The only request `generate_multicast` can send is its dump. -/
theorem generate_multicast_doit (env : Env) (af : Int) (bufsize : Nat) :
    doit_requests (generate_multicast env af bufsize).2.2 = [] := by
  unfold generate_multicast
  split
  · rfl
  · simp only [msg_dumpit, mnl_cb_run_get_netid_events]
    split
    · rfl
    · split <;> rfl

/-- The UDP resolver of the enable path hands nothing to `msg_doit`. -/
theorem enable_udp_bearer_doit (env : Env) (nlh : Nlmsg) (opts : List Opt) :
    doit_requests (enable_udp_bearer env nlh opts).2.2 = [] := by
  have hg : ∀ af, doit_requests (generate_multicast env af INET6_ADDRSTRLEN).2.2 = [] :=
    fun af => generate_multicast_doit env af INET6_ADDRSTRLEN
  unfold enable_udp_bearer
  cases hr : get_opt opts "remoteip".toList <;> simp only [] <;> repeat' split
  all_goals simp [doit_requests, doit_requests_append, hg]

/-- The message `enable_udp_bearer` leaves on success: the name, then the UDP
container with the two socket addresses. -/
theorem enable_udp_bearer_ok (env : Env) (nlh : Nlmsg) (opts : List Opt) (v : CStr)
    (hname : get_opt opts "name".toList = some v)
    (hok : (enable_udp_bearer env nlh opts).1 = 0) :
    ∃ l r ev, enable_udp_bearer env nlh opts
      = (0, ⟨nlh.cmd, nlh.attrs ++
          [Attr.strz TIPC_NLA_BEARER_NAME (snprintf TIPC_MAX_BEARER_NAME ("udp:".toList ++ v)),
           Attr.nest TIPC_NLA_BEARER_UDP_OPTS
             [Attr.raw TIPC_NLA_UDP_LOCAL l, Attr.raw TIPC_NLA_UDP_REMOTE r]]⟩, ev) ∧
      doit_requests ev = [] := by
  have hdo := enable_udp_bearer_doit env nlh opts
  generalize hE : enable_udp_bearer env nlh opts = E at hok hdo ⊢
  unfold enable_udp_bearer at hE
  cases hl : get_opt opts "localip".toList <;> cases hr : get_opt opts "remoteip".toList <;>
    simp only [hname, hl, hr] at hE <;> repeat' split at hE
  all_goals subst hE
  all_goals first
    | (simp [EINVAL] at hok; done)
    | (exact absurd hok (by assumption))
    | (rw [udp_opts_shape]; exact ⟨_, _, _, rfl, hdo⟩)


/-! ## Lemmas on `atoi` and decimal numerals -/

/-- A decimal digit character is a digit, with its own value, and is neither
white space nor a sign. -/
theorem digitChar_facts (d : Nat) (hd : d < 10) :
    (Nat.digitChar d).isDigit = true ∧ (Nat.digitChar d).toNat - 48 = d ∧
      isspace (Nat.digitChar d) = false ∧ Nat.digitChar d ≠ '-' ∧ Nat.digitChar d ≠ '+' := by
  interval_cases d <;> decide

theorem toDigitsCore_append (fuel : Nat) : ∀ (n : Nat) (ds : List Char),
    Nat.toDigitsCore 10 fuel n ds = Nat.toDigitsCore 10 fuel n [] ++ ds := by
  induction fuel with
  | zero => intro n ds; simp [Nat.toDigitsCore]
  | succ fuel ih =>
    intro n ds
    simp only [Nat.toDigitsCore]
    split
    · simp
    · rw [ih (n / 10) (Nat.digitChar (n % 10) :: ds), ih (n / 10) [Nat.digitChar (n % 10)]]
      simp

/-- Reading back the digits `toDigitsCore` writes gives the number. -/
theorem strtol_digits_toDigitsCore (fuel : Nat) : ∀ (n : Nat), n < fuel →
    ∀ (rest : List Char) (acc : Nat),
      strtol_digits (Nat.toDigitsCore 10 fuel n [] ++ rest) acc
        = strtol_digits rest (acc * 10 ^ (Nat.toDigitsCore 10 fuel n []).length + n) := by
  induction fuel with
  | zero => intro n hn; omega
  | succ fuel ih =>
    intro n hn rest acc
    obtain ⟨hdig, hval, -⟩ := digitChar_facts (n % 10) (Nat.mod_lt _ (by decide))
    simp only [Nat.toDigitsCore]
    split
    · rename_i h0
      have hn10 : n % 10 = n := by omega
      rw [hn10] at hdig hval
      simp [strtol_digits, hdig, hval, hn10]
    · rename_i h0
      rw [toDigitsCore_append fuel (n / 10) [Nat.digitChar (n % 10)]]
      rw [List.append_assoc, ih (n / 10) (by omega)]
      simp only [List.singleton_append, strtol_digits, hdig, if_true, hval, List.length_append,
        List.length_singleton, pow_succ]
      congr 1
      have := Nat.div_add_mod n 10
      ring_nf
      omega

/-- The numeral of a number starts with a digit. -/
theorem toDigitsCore_head (fuel : Nat) : ∀ (n : Nat) (ds : List Char), n < fuel →
    ∃ d cs, d < 10 ∧ Nat.toDigitsCore 10 fuel n ds = Nat.digitChar d :: cs := by
  induction fuel with
  | zero => intro n ds hn; omega
  | succ fuel ih =>
    intro n ds hn
    simp only [Nat.toDigitsCore]
    split
    · exact ⟨n % 10, ds, Nat.mod_lt _ (by decide), rfl⟩
    · exact ih (n / 10) _ (by omega)

/-- The function `atoi` reads the decimal numeral of a number in the range of
a non-negative `int` as that number. -/
theorem atoi_repr (n : Nat) (hn : n < 2147483648) : atoi (Nat.repr n).toList = (n : Int) := by
  have hrepr : (Nat.repr n).toList = Nat.toDigitsCore 10 (n + 1) n [] := rfl
  obtain ⟨d, cs, hd, hhead⟩ := toDigitsCore_head (n + 1) n [] (Nat.lt_succ_self n)
  have hread := strtol_digits_toDigitsCore (n + 1) n (Nat.lt_succ_self n) [] 0
  simp only [List.append_nil, Nat.zero_mul, Nat.zero_add, strtol_digits] at hread
  obtain ⟨-, -, hsp, hminus, hplus⟩ := digitChar_facts d hd
  have hstr : strtol (Nat.repr n).toList = (n : Int) := by
    unfold strtol
    rw [hrepr, hhead, List.dropWhile_cons_of_neg (by simp [hsp])]
    rw [hhead] at hread
    split
    · rename_i r heq
      exact absurd (List.cons.inj heq).1 hminus
    · rename_i r heq
      exact absurd (List.cons.inj heq).1 hplus
    · rw [hread]
      omega
  unfold atoi
  rw [hstr]
  omega

/-- The function `atoi` reads a minus sign followed by the decimal numeral of
a number up to 2^31 as the negative of that number. -/
theorem atoi_neg_repr (n : Nat) (hn : n ≤ 2147483648) :
    atoi ('-' :: (Nat.repr n).toList) = -(n : Int) := by
  have hrepr : (Nat.repr n).toList = Nat.toDigitsCore 10 (n + 1) n [] := rfl
  have hread := strtol_digits_toDigitsCore (n + 1) n (Nat.lt_succ_self n) [] 0
  simp only [List.append_nil, Nat.zero_mul, Nat.zero_add, strtol_digits] at hread
  have hstr : strtol ('-' :: (Nat.repr n).toList) = -(n : Int) := by
    unfold strtol
    rw [List.dropWhile_cons_of_neg (by decide)]
    simp only [hrepr, hread]
    omega
  unfold atoi
  rw [hstr]
  omega

/-! ## The bearer name of every request a command sends -/

/-- The decoder `bearer_get_cb` hands nothing to `msg_doit`. -/
theorem mnl_cb_run_bearer_get_doit (prop : Nat) (msgs : List Nlmsg) (final : Int) :
    doit_requests (mnl_cb_run (bearer_get_cb prop) msgs final ()).2.2 = [] := by
  induction msgs with
  | nil => rfl
  | cons m ms ih =>
    have hev : doit_requests (bearer_get_cb prop m ()).2.2 = [] := by
      unfold bearer_get_cb
      repeat' split
      all_goals rfl
    unfold mnl_cb_run
    by_cases h : (bearer_get_cb prop m ()).1 ≤ 0
    · simp [h, hev]
    · simp [h, hev, ih, doit_requests_append]

/-- Every request `cmd_bearer_disable` hands to `msg_doit` names the selected
bearer by the text `snprintf` leaves in the name buffer. -/
theorem cmd_bearer_disable_name (env : Env) (cmd : Cmd) (cmdl : Cmdl) (m v : CStr)
    (hsel : media_selected (env.parse_opts disable_opts cmdl).2.1 m v) :
    ∀ req ∈ doit_requests (cmd_bearer_disable env cmd cmdl).2.2,
      bearer_name req = some (snprintf TIPC_MAX_BEARER_NAME (m ++ ":".toList ++ v)) := by
  intro req hreq
  by_cases hp : (env.parse_opts disable_opts cmdl).1 < 0
  · simp only [cmd_bearer_disable, hp] at hreq
    by_cases hh : env.help_flag = true <;> simp [hh, doit_requests] at hreq
  · cases hi : msg_init env TIPC_NL_BEARER_DISABLE with
    | none =>
      rcases hsel with ⟨-, hmedia, -⟩ | ⟨-, hmedia, -⟩ <;>
        simp only [cmd_bearer_disable, hp, hmedia, hi] at hreq <;>
        simp [doit_requests] at hreq
    | some nlh0 =>
      have hnlh : nlh0 = ⟨TIPC_NL_BEARER_DISABLE, []⟩ := by
        unfold msg_init at hi
        split at hi
        · exact (Option.some.inj hi).symm
        · cases hi
      subst hnlh
      cases hh : env.help_flag with
      | true =>
        rcases hsel with ⟨-, hmedia, -⟩ | ⟨-, hmedia, -⟩ <;>
          simp only [cmd_bearer_disable, hp, hmedia, hi, hh] at hreq <;>
          simp [doit_requests] at hreq
      | false =>
        rcases hsel with ⟨hm, hmedia, hdev⟩ | ⟨hm, hmedia, hname⟩
        · subst hm
          simp only [cmd_bearer_disable, hp, hmedia, hi, hh, add_l2_bearer, hdev,
            msg_doit_cb_null] at hreq
          simp [mnl_attr_nest_start, mnl_attr_nest_end, mnl_attr_put, mnl_attr_put_strz,
            doit_requests] at hreq
          subst hreq
          rfl
        · subst hm
          simp only [cmd_bearer_disable, hp, hmedia, hi, hh, add_udp_bearer, hname,
            msg_doit_cb_null] at hreq
          simp [mnl_attr_nest_start, mnl_attr_nest_end, mnl_attr_put, mnl_attr_put_strz,
            doit_requests] at hreq
          subst hreq
          rfl

/-- Every request `cmd_bearer_get_prop` hands to `msg_doit` names the selected
bearer by the text `snprintf` leaves in the name buffer. -/
theorem cmd_bearer_get_prop_name (env : Env) (cmd : Cmd) (cmdl : Cmdl) (m v : CStr)
    (hsel : media_selected (env.parse_opts prop_opts cmdl).2.1 m v) :
    ∀ req ∈ doit_requests (cmd_bearer_get_prop env cmd cmdl).2.2,
      bearer_name req = some (snprintf TIPC_MAX_BEARER_NAME (m ++ ":".toList ++ v)) := by
  intro req hreq
  cases hprop : prop_of_cmd cmd with
  | none =>
    simp only [cmd_bearer_get_prop, hprop] at hreq
    simp [doit_requests] at hreq
  | some prop =>
    cases hh : env.help_flag with
    | true =>
      simp only [cmd_bearer_get_prop, hprop, hh] at hreq
      simp [doit_requests] at hreq
    | false =>
      by_cases hp : (env.parse_opts prop_opts cmdl).1 < 0
      · simp only [cmd_bearer_get_prop, hprop, hh, hp] at hreq
        simp [doit_requests] at hreq
      · cases hi : msg_init env TIPC_NL_BEARER_GET with
        | none =>
          simp only [cmd_bearer_get_prop, hprop, hh, hp, hi] at hreq
          simp [doit_requests] at hreq
        | some nlh0 =>
          have hnlh : nlh0 = ⟨TIPC_NL_BEARER_GET, []⟩ := by
            unfold msg_init at hi
            split at hi
            · exact (Option.some.inj hi).symm
            · cases hi
          subst hnlh
          rcases hsel with ⟨hm, hmedia, hdev⟩ | ⟨hm, hmedia, hname⟩
          · subst hm
            simp only [cmd_bearer_get_prop, hprop, hp, hmedia, hi, hh, add_l2_bearer, hdev,
              msg_doit] at hreq
            simp [mnl_attr_nest_start, mnl_attr_nest_end, mnl_attr_put, mnl_attr_put_strz,
              doit_requests, doit_requests_append, mnl_cb_run_bearer_get_doit] at hreq
            subst hreq
            rfl
          · subst hm
            simp only [cmd_bearer_get_prop, hprop, hp, hmedia, hi, hh, add_udp_bearer, hname,
              msg_doit] at hreq
            simp [mnl_attr_nest_start, mnl_attr_nest_end, mnl_attr_put, mnl_attr_put_strz,
              doit_requests, doit_requests_append, mnl_cb_run_bearer_get_doit] at hreq
            subst hreq
            rfl

/-- Every request `cmd_bearer_set_prop` hands to `msg_doit` names the selected
bearer by the text `snprintf` leaves in the name buffer. -/
theorem cmd_bearer_set_prop_name (env : Env) (cmd : Cmd) (cmdl : Cmdl) (m v : CStr)
    (hsel : media_selected (env.parse_opts prop_opts (shift_cmdl cmdl).2).2.1 m v) :
    ∀ req ∈ doit_requests (cmd_bearer_set_prop env cmd cmdl).2.2,
      bearer_name req = some (snprintf TIPC_MAX_BEARER_NAME (m ++ ":".toList ++ v)) := by
  intro req hreq
  cases hprop : prop_of_cmd cmd with
  | none =>
    simp only [cmd_bearer_set_prop, hprop] at hreq
    simp [doit_requests] at hreq
  | some prop =>
    cases hh : env.help_flag with
    | true =>
      simp only [cmd_bearer_set_prop, hprop, hh] at hreq
      simp [doit_requests] at hreq
    | false =>
      by_cases hge : cmdl.optind ≥ cmdl.argc
      · simp only [cmd_bearer_set_prop, hprop, hh, hge] at hreq
        simp [doit_requests] at hreq
      · by_cases hp : (env.parse_opts prop_opts (shift_cmdl cmdl).2).1 < 0
        · simp only [cmd_bearer_set_prop, hprop, hh, hge, hp] at hreq
          simp [doit_requests] at hreq
        · cases hi : msg_init env TIPC_NL_BEARER_SET with
          | none =>
            simp only [cmd_bearer_set_prop, hprop, hh, hge, hp, hi] at hreq
            simp [doit_requests] at hreq
          | some nlh0 =>
            have hnlh : nlh0 = ⟨TIPC_NL_BEARER_SET, []⟩ := by
              unfold msg_init at hi
              split at hi
              · exact (Option.some.inj hi).symm
              · cases hi
            subst hnlh
            rcases hsel with ⟨hm, hmedia, hdev⟩ | ⟨hm, hmedia, hname⟩
            · subst hm
              simp only [cmd_bearer_set_prop, hprop, hge, hp, hmedia, hi, hh, add_l2_bearer,
                hdev, msg_doit_cb_null] at hreq
              simp [mnl_attr_nest_start, mnl_attr_nest_end, mnl_attr_put, mnl_attr_put_strz,
                mnl_attr_put_u32, doit_requests] at hreq
              subst hreq
              rfl
            · subst hm
              simp only [cmd_bearer_set_prop, hprop, hge, hp, hmedia, hi, hh, add_udp_bearer,
                hname, msg_doit_cb_null] at hreq
              simp [mnl_attr_nest_start, mnl_attr_nest_end, mnl_attr_put, mnl_attr_put_strz,
                mnl_attr_put_u32, doit_requests] at hreq
              subst hreq
              rfl

/-- Every request `cmd_bearer_enable` hands to `msg_doit` names the selected
bearer by the text `snprintf` leaves in the name buffer. -/
theorem cmd_bearer_enable_name (env : Env) (cmd : Cmd) (cmdl : Cmdl) (m v : CStr)
    (hsel : media_selected (env.parse_opts enable_opts cmdl).2.1 m v) :
    ∀ req ∈ doit_requests (cmd_bearer_enable env cmd cmdl).2.2,
      bearer_name req = some (snprintf TIPC_MAX_BEARER_NAME (m ++ ":".toList ++ v)) := by
  intro req hreq
  by_cases hp : (env.parse_opts enable_opts cmdl).1 < 0
  · simp only [cmd_bearer_enable, hp] at hreq
    by_cases hh : env.help_flag = true <;> simp [hh, doit_requests] at hreq
  · cases hi : msg_init env TIPC_NL_BEARER_ENABLE with
    | none =>
      rcases hsel with ⟨-, hmedia, -⟩ | ⟨-, hmedia, -⟩ <;>
        simp only [cmd_bearer_enable, hp, hmedia, hi] at hreq <;>
        simp [doit_requests] at hreq
    | some nlh0 =>
      have hnlh : nlh0 = ⟨TIPC_NL_BEARER_ENABLE, []⟩ := by
        unfold msg_init at hi
        split at hi
        · exact (Option.some.inj hi).symm
        · cases hi
      subst hnlh
      cases hh : env.help_flag with
      | true =>
        rcases hsel with ⟨-, hmedia, -⟩ | ⟨-, hmedia, -⟩ <;>
          simp only [cmd_bearer_enable, hp, hmedia, hi, hh] at hreq <;>
          simp [doit_requests] at hreq
      | false =>
        rcases hsel with ⟨hm, hmedia, hdev⟩ | ⟨hm, hmedia, hname⟩
        · subst hm
          cases hd : get_opt (env.parse_opts enable_opts cmdl).2.1 "domain".toList <;>
            cases hpr : get_opt (env.parse_opts enable_opts cmdl).2.1 "priority".toList <;>
            simp only [cmd_bearer_enable, hp, hmedia, hi, hh, enable_l2_bearer, hdev, hd, hpr,
              msg_doit_cb_null] at hreq <;>
            simp [mnl_attr_nest_start, mnl_attr_nest_end, mnl_attr_put, mnl_attr_put_strz,
              mnl_attr_put_u32, doit_requests] at hreq <;>
            subst hreq <;> rfl
        · subst hm
          cases hd : get_opt (env.parse_opts enable_opts cmdl).2.1 "domain".toList <;>
            cases hpr : get_opt (env.parse_opts enable_opts cmdl).2.1 "priority".toList <;>
            simp only [cmd_bearer_enable, hp, hmedia, hi, hh, hd, hpr,
              msg_doit_cb_null] at hreq <;>
            (repeat simp only [Bool.false_eq_true, if_true, if_false] at hreq) <;>
            split at hreq
          all_goals first
            | (simp [doit_requests, enable_udp_bearer_doit] at hreq; done)
            | skip
          all_goals
            rename_i hok
            have hok0 := not_not.mp hok
            obtain ⟨l, r, ev, hE, hdo⟩ := enable_udp_bearer_ok env _ _ v hname hok0
            rw [hE] at hreq
            simp [mnl_attr_nest_start, mnl_attr_nest_end, mnl_attr_put, mnl_attr_put_strz,
              mnl_attr_put_u32, doit_requests, doit_requests_append, hdo] at hreq
            subst hreq
            rfl

/-! ## The bearer identifier -/

/-- Claim C1, as amended: for each media `m` of eth and udp and each
discriminator `v` (the `device` value for eth, the `name` value for udp)
whose identifier `m:v` fits the name buffer (its length is below
`TIPC_MAX_BEARER_NAME`), the bearer-name attribute the resolver appends to the
request is exactly `m:v`: `enable_l2_bearer` and `enable_udp_bearer` on the
enable path, `add_l2_bearer` and `add_udp_bearer` on the disable, set and get
paths; and every request that `bearer enable`, `disable`, `set` or `get`
hands to `msg_doit` carries exactly `m:v` as the name of its bearer
container. -/
theorem bearer_id_exact_when_fits (env : Env) (cmd : Cmd) (cmdl : Cmdl) (nlh : Nlmsg)
    (opts : List Opt) (m v : CStr)
    (hfit : 4 + v.length < TIPC_MAX_BEARER_NAME) :
    (get_opt opts "device".toList = some v →
      enable_l2_bearer nlh opts
        = (0, mnl_attr_put_strz nlh TIPC_NLA_BEARER_NAME ("eth:".toList ++ v), []) ∧
      add_l2_bearer nlh opts
        = (0, mnl_attr_put_strz nlh TIPC_NLA_BEARER_NAME ("eth:".toList ++ v), [])) ∧
    (get_opt opts "name".toList = some v →
      add_udp_bearer nlh opts
        = (0, mnl_attr_put_strz nlh TIPC_NLA_BEARER_NAME ("udp:".toList ++ v), []) ∧
      ((enable_udp_bearer env nlh opts).1 = 0 →
        ∃ l r, (enable_udp_bearer env nlh opts).2.1
          = ⟨nlh.cmd, nlh.attrs ++ [Attr.strz TIPC_NLA_BEARER_NAME ("udp:".toList ++ v),
              Attr.nest TIPC_NLA_BEARER_UDP_OPTS
                [Attr.raw TIPC_NLA_UDP_LOCAL l, Attr.raw TIPC_NLA_UDP_REMOTE r]]⟩)) ∧
    (media_selected (env.parse_opts enable_opts cmdl).2.1 m v →
      ∀ req ∈ doit_requests (cmd_bearer_enable env cmd cmdl).2.2,
        bearer_name req = some (m ++ ":".toList ++ v)) ∧
    (media_selected (env.parse_opts disable_opts cmdl).2.1 m v →
      ∀ req ∈ doit_requests (cmd_bearer_disable env cmd cmdl).2.2,
        bearer_name req = some (m ++ ":".toList ++ v)) ∧
    (media_selected (env.parse_opts prop_opts (shift_cmdl cmdl).2).2.1 m v →
      ∀ req ∈ doit_requests (cmd_bearer_set_prop env cmd cmdl).2.2,
        bearer_name req = some (m ++ ":".toList ++ v)) ∧
    (media_selected (env.parse_opts prop_opts cmdl).2.1 m v →
      ∀ req ∈ doit_requests (cmd_bearer_get_prop env cmd cmdl).2.2,
        bearer_name req = some (m ++ ":".toList ++ v)) := by
  have heth : snprintf TIPC_MAX_BEARER_NAME ("eth:".toList ++ v) = "eth:".toList ++ v :=
    snprintf_fits _ _ (by rw [List.length_append]; exact hfit)
  have hudp : snprintf TIPC_MAX_BEARER_NAME ("udp:".toList ++ v) = "udp:".toList ++ v :=
    snprintf_fits _ _ (by rw [List.length_append]; exact hfit)
  have hsn : ∀ o, media_selected o m v →
      snprintf TIPC_MAX_BEARER_NAME (m ++ ":".toList ++ v) = m ++ ":".toList ++ v := by
    intro o hsel
    rcases hsel with ⟨hm, -⟩ | ⟨hm, -⟩
    · subst hm; exact heth
    · subst hm; exact hudp
  refine ⟨fun hdev => ⟨?_, ?_⟩, fun hname => ⟨?_, fun hok => ?_⟩, fun hsel req hreq => ?_,
    fun hsel req hreq => ?_, fun hsel req hreq => ?_, fun hsel req hreq => ?_⟩
  · unfold enable_l2_bearer
    rw [hdev]
    simp only [heth]
  · unfold add_l2_bearer
    rw [hdev]
    simp only [heth]
  · unfold add_udp_bearer
    rw [hname]
    simp only [hudp]
  · obtain ⟨l, r, ev, h, -⟩ := enable_udp_bearer_ok env nlh opts v hname hok
    rw [h, hudp]
    exact ⟨l, r, rfl⟩
  · rw [cmd_bearer_enable_name env cmd cmdl m v hsel req hreq, hsn _ hsel]
  · rw [cmd_bearer_disable_name env cmd cmdl m v hsel req hreq, hsn _ hsel]
  · rw [cmd_bearer_set_prop_name env cmd cmdl m v hsel req hreq, hsn _ hsel]
  · rw [cmd_bearer_get_prop_name env cmd cmdl m v hsel req hreq, hsn _ hsel]

/-- Witness of C1: device `eth0` through `add_l2_bearer` and
`enable_l2_bearer`, and `bearer get priority media udp name myudp` against
the sample kernel, whose one request is named `udp:myudp`. -/
theorem bearer_id_exact_when_fits_witness :
    (add_l2_bearer ⟨TIPC_NL_BEARER_DISABLE, []⟩ [⟨"device".toList, some "eth0".toList⟩]
        = (0, ⟨TIPC_NL_BEARER_DISABLE, [Attr.strz TIPC_NLA_BEARER_NAME "eth:eth0".toList]⟩, [])) ∧
    (enable_l2_bearer ⟨TIPC_NL_BEARER_ENABLE, []⟩ [⟨"device".toList, some "eth0".toList⟩]
        = (0, ⟨TIPC_NL_BEARER_ENABLE, [Attr.strz TIPC_NLA_BEARER_NAME "eth:eth0".toList]⟩, [])) ∧
    ((doit_requests (cmd_bearer_get_prop Env.sample ⟨"priority".toList, "cmd_bearer_get_help"⟩
        (Cmdl.of ["media".toList, "udp".toList, "name".toList, "myudp".toList])).2.2).length = 1 ∧
      ∀ req ∈ doit_requests (cmd_bearer_get_prop Env.sample
          ⟨"priority".toList, "cmd_bearer_get_help"⟩
          (Cmdl.of ["media".toList, "udp".toList, "name".toList, "myudp".toList])).2.2,
        bearer_name req = some "udp:myudp".toList) :=
  ⟨((bearer_id_exact_when_fits Env.sample ⟨[], ""⟩ (Cmdl.of []) ⟨TIPC_NL_BEARER_DISABLE, []⟩
      [⟨"device".toList, some "eth0".toList⟩] "eth".toList "eth0".toList (by decide)).1 rfl).2,
   ((bearer_id_exact_when_fits Env.sample ⟨[], ""⟩ (Cmdl.of []) ⟨TIPC_NL_BEARER_ENABLE, []⟩
      [⟨"device".toList, some "eth0".toList⟩] "eth".toList "eth0".toList (by decide)).1 rfl).1,
   by decide,
   (bearer_id_exact_when_fits Env.sample ⟨"priority".toList, "cmd_bearer_get_help"⟩
      (Cmdl.of ["media".toList, "udp".toList, "name".toList, "myudp".toList]) ⟨0, []⟩ []
      "udp".toList "myudp".toList (by decide)).2.2.2.2.2 (by decide)⟩

/-- Counterexample to C1 as stated: on the disable, set and get paths the
name `tunnel-to-datacenter-east-0001` (30 bytes) makes `add_udp_bearer`
succeed and write the 31-byte identifier `udp:tunnel-to-datacenter-east-0`,
which is not `udp:` followed by the name. -/
theorem bearer_id_exact_counterexample :
    (add_udp_bearer ⟨TIPC_NL_BEARER_DISABLE, []⟩
        [⟨"name".toList, some "tunnel-to-datacenter-east-0001".toList⟩]).1 = 0 ∧
    (add_udp_bearer ⟨TIPC_NL_BEARER_DISABLE, []⟩
        [⟨"name".toList, some "tunnel-to-datacenter-east-0001".toList⟩]).2.1.attrs.map
          mnl_attr_get_str = ["udp:tunnel-to-datacenter-east-0".toList] ∧
    (add_udp_bearer ⟨TIPC_NL_BEARER_DISABLE, []⟩
        [⟨"name".toList, some "tunnel-to-datacenter-east-0001".toList⟩]).2.1.attrs.map
          mnl_attr_get_str ≠ ["udp:".toList ++ "tunnel-to-datacenter-east-0001".toList] := by
  decide

/-- Claim C4: for every UDP enable in which the local address and the remote
address (the `remoteip` option, or else the generated multicast address) both
resolve and their address families differ, `cmd_bearer_enable` returns
`-EINVAL` after the diagnostic "UDP local and remote AF mismatch", and no
request reaches `msg_doit`. -/
theorem enable_udp_af_mismatch (env : Env) (cmd : Cmd) (cmdl : Cmdl) (N L remip : CStr)
    (loc rem : AddrInfo)
    (hhelp : env.help_flag = false)
    (hparse : 0 ≤ (env.parse_opts enable_opts cmdl).1)
    (hinit : env.msg_init_ok TIPC_NL_BEARER_ENABLE = true)
    (hmedia : get_opt (env.parse_opts enable_opts cmdl).2.1 "media".toList = some "udp".toList)
    (hname : get_opt (env.parse_opts enable_opts cmdl).2.1 "name".toList = some N)
    (hlocip : get_opt (env.parse_opts enable_opts cmdl).2.1 "localip".toList = some L)
    (hloc : env.getaddrinfo L
      ((get_opt (env.parse_opts enable_opts cmdl).2.1 "localport".toList).getD "6118".toList)
        = (0, loc))
    (hremip : get_opt (env.parse_opts enable_opts cmdl).2.1 "remoteip".toList = some remip ∨
      (get_opt (env.parse_opts enable_opts cmdl).2.1 "remoteip".toList = none ∧
        (generate_multicast env loc.ai_family INET6_ADDRSTRLEN).1 = 0 ∧
        (generate_multicast env loc.ai_family INET6_ADDRSTRLEN).2.1 = remip))
    (hrem : env.getaddrinfo remip
      ((get_opt (env.parse_opts enable_opts cmdl).2.1 "remoteport".toList).getD "6118".toList)
        = (0, rem))
    (hfam : rem.ai_family ≠ loc.ai_family) :
    (cmd_bearer_enable env cmd cmdl).1 = -EINVAL ∧
    doit_requests (cmd_bearer_enable env cmd cmdl).2.2 = [] ∧
    Event.stderr "UDP local and remote AF mismatch\n" ∈ (cmd_bearer_enable env cmd cmdl).2.2 := by
  have hi : msg_init env TIPC_NL_BEARER_ENABLE = some ⟨TIPC_NL_BEARER_ENABLE, []⟩ := by
    simp [msg_init, hinit]
  have hp : ¬ (env.parse_opts enable_opts cmdl).1 < 0 := by omega
  have hudp : ∀ nlh, enable_udp_bearer env nlh (env.parse_opts enable_opts cmdl).2.1
      = (-EINVAL, nlh,
          (match get_opt (env.parse_opts enable_opts cmdl).2.1 "remoteip".toList with
            | some _ => []
            | none => (generate_multicast env loc.ai_family INET6_ADDRSTRLEN).2.2)
          ++ [Event.stderr "UDP local and remote AF mismatch\n"]) := by
    intro nlh
    rcases hremip with hr | ⟨hr, hg1, hg2⟩
    · simp only [enable_udp_bearer, hhelp, hname, hlocip, hloc, hr, hrem]
      simp [hfam]
    · simp only [enable_udp_bearer, hhelp, hname, hlocip, hloc, hr, hg1, hg2, hrem]
      simp [hfam]
  have hrun : cmd_bearer_enable env cmd cmdl
      = (-EINVAL, (env.parse_opts enable_opts cmdl).2.2, Event.parse_opts ::
          ((match get_opt (env.parse_opts enable_opts cmdl).2.1 "remoteip".toList with
            | some _ => []
            | none => (generate_multicast env loc.ai_family INET6_ADDRSTRLEN).2.2)
          ++ [Event.stderr "UDP local and remote AF mismatch\n"])) := by
    simp only [cmd_bearer_enable, hp, hmedia, hi, hhelp, hudp]
    simp [EINVAL]
  rw [hrun]
  refine ⟨rfl, ?_, by simp⟩
  cases get_opt (env.parse_opts enable_opts cmdl).2.1 "remoteip".toList with
  | some r => rfl
  | none =>
    have hg := generate_multicast_doit env loc.ai_family INET6_ADDRSTRLEN
    simp [doit_requests, doit_requests_append, hg]

/-- Witness of C4: `bearer enable media udp name myudp localip 10.0.0.1
remoteip fe80::1` against the sample resolver (IPv4 local, IPv6 remote). -/
theorem enable_udp_af_mismatch_witness :
    (cmd_bearer_enable Env.sample ⟨"enable".toList, "cmd_bearer_enable_help"⟩
      (Cmdl.of ["media".toList, "udp".toList, "name".toList, "myudp".toList,
        "localip".toList, "10.0.0.1".toList, "remoteip".toList, "fe80::1".toList])).1
      = -EINVAL ∧
    doit_requests (cmd_bearer_enable Env.sample ⟨"enable".toList, "cmd_bearer_enable_help"⟩
      (Cmdl.of ["media".toList, "udp".toList, "name".toList, "myudp".toList,
        "localip".toList, "10.0.0.1".toList, "remoteip".toList, "fe80::1".toList])).2.2
      = [] :=
  have h := enable_udp_af_mismatch Env.sample ⟨"enable".toList, "cmd_bearer_enable_help"⟩
    (Cmdl.of ["media".toList, "udp".toList, "name".toList, "myudp".toList,
      "localip".toList, "10.0.0.1".toList, "remoteip".toList, "fe80::1".toList])
    "myudp".toList "10.0.0.1".toList "fe80::1".toList ⟨AF_INET, []⟩ ⟨AF_INET6, []⟩
    rfl (by decide) rfl (by decide) (by decide) (by decide) rfl (Or.inl (by decide)) rfl
    (by decide)
  ⟨h.1, h.2.1⟩

/-! ## The generated multicast address -/

/-- The byte the C expression `(netid >> 8) & 0xFF` selects is the second
byte of the identifier, whatever the sign of the `int`. -/
theorem sar32_byte (X : Nat) (hX : X < 4294967296) :
    sar32 X 8 &&& 0xFF = (X >>> 8) &&& 0xFF := by
  unfold sar32
  rw [Nat.mod_eq_of_lt hX]
  split
  · rfl
  · rw [Nat.and_distrib_right]
    have h0 : (4294967295 - 4294967295 >>> 8) &&& 0xFF = 0 := by decide
    rw [h0, Nat.or_zero]

/-- The run of `get_netid_cb` over replies that all decode leaves the
identifier of the last one in `netid`. -/
theorem mnl_cb_run_get_netid (pre : List Nlmsg) (m : Nlmsg) (net : Attr) (X : Nat)
    (hpre : ∀ m1 ∈ pre, ∀ n, (get_netid_cb m1 n).1 = MNL_CB_OK)
    (hnet : parse_attrs m.attrs TIPC_NLA_NET = some net)
    (hid : parse_attrs (mnl_attr_nested net) TIPC_NLA_NET_ID = some (Attr.u32 TIPC_NLA_NET_ID X)) :
    ∀ n0, mnl_cb_run get_netid_cb (pre ++ [m]) 0 n0 = (0, X % 4294967296, []) := by
  induction pre with
  | nil =>
    intro n0
    have hcb : get_netid_cb m n0 = (MNL_CB_OK, X % 4294967296, []) := by
      unfold get_netid_cb
      rw [hnet]
      simp only [hid]
      rfl
    simp [mnl_cb_run, hcb, MNL_CB_OK]
  | cons m1 ms ih =>
    intro n0
    have h1 := hpre m1 (List.mem_cons_self _ _) n0
    have hev := mnl_cb_run_get_netid_events [m1] 0 n0
    have ih1 := ih (fun m2 hm2 => hpre m2 (List.mem_cons_of_mem _ hm2))
    have hev1 : (get_netid_cb m1 n0).2.2 = [] := by
      unfold get_netid_cb
      split
      · rfl
      · split <;> rfl
    simp [mnl_cb_run, h1, MNL_CB_OK, ih1, hev1]

/-- Claim C3: for a UDP enable with no `remoteip`, when the network query is
answered by replies that all decode, the last one carrying the network
identifier `X`, `generate_multicast` succeeds and leaves in the buffer the
text `228.0.<a>.<b>` with `a = (X >> 8) & 0xFF` and `b = X & 0xFF` in decimal
when the local family is IPv4, and `ff02::` followed by `X` in decimal when
the local family is IPv6. -/
theorem generate_multicast_text (env : Env) (af : Int) (X : Nat) (pre : List Nlmsg)
    (m : Nlmsg) (net : Attr)
    (hX : X < 4294967296)
    (hinit : env.msg_init_ok TIPC_NL_NET_GET = true)
    (hstream : env.kernel true ⟨TIPC_NL_NET_GET, []⟩ = ⟨pre ++ [m], 0⟩)
    (hpre : ∀ m1 ∈ pre, ∀ n, (get_netid_cb m1 n).1 = MNL_CB_OK)
    (hnet : parse_attrs m.attrs TIPC_NLA_NET = some net)
    (hid : parse_attrs (mnl_attr_nested net) TIPC_NLA_NET_ID
      = some (Attr.u32 TIPC_NLA_NET_ID X)) :
    (generate_multicast env af INET6_ADDRSTRLEN).1 = 0 ∧
    (af = AF_INET → (generate_multicast env af INET6_ADDRSTRLEN).2.1
      = "228.0.".toList ++ (Nat.repr ((X >>> 8) &&& 0xFF)).toList ++ ".".toList
          ++ (Nat.repr (X &&& 0xFF)).toList) ∧
    (af = AF_INET6 → (generate_multicast env af INET6_ADDRSTRLEN).2.1
      = "ff02::".toList ++ (Nat.repr X).toList) := by
  have hi : msg_init env TIPC_NL_NET_GET = some ⟨TIPC_NL_NET_GET, []⟩ := by
    simp [msg_init, hinit]
  have hrun := mnl_cb_run_get_netid pre m net X hpre hnet hid env.netid_garbage
  have hXm : X % 4294967296 = X := Nat.mod_eq_of_lt hX
  have ha : (X >>> 8) &&& 0xFF < 256 := Nat.lt_succ_of_le Nat.and_le_right
  have hb : X &&& 0xFF < 256 := Nat.lt_succ_of_le Nat.and_le_right
  have hla : (Nat.repr ((X >>> 8) &&& 0xFF)).toList.length ≤ 3 :=
    Nat.repr_length _ 3 (by decide) (by omega)
  have hlb : (Nat.repr (X &&& 0xFF)).toList.length ≤ 3 :=
    Nat.repr_length _ 3 (by decide) (by omega)
  have hlx : (Nat.repr X).toList.length ≤ 10 :=
    Nat.repr_length _ 10 (by decide) (by omega)
  have hgen : generate_multicast env af INET6_ADDRSTRLEN
      = if af = AF_INET then
          (0, snprintf INET6_ADDRSTRLEN ("228.0.".toList ++ fmt_u (sar32 X 8 &&& 0xFF)
            ++ ".".toList ++ fmt_u (X &&& 0xFF)), [Event.dumpit ⟨TIPC_NL_NET_GET, []⟩])
        else
          (0, snprintf INET6_ADDRSTRLEN ("ff02::".toList ++ fmt_u X),
            [Event.dumpit ⟨TIPC_NL_NET_GET, []⟩]) := by
    simp only [generate_multicast, hi, msg_dumpit, hstream, hrun, hXm]
    simp
  rw [hgen]
  refine ⟨by split <;> rfl, fun haf => ?_, fun haf => ?_⟩
  · rw [if_pos haf]
    show snprintf _ _ = _
    rw [sar32_byte X hX]
    unfold fmt_u
    rw [Nat.mod_eq_of_lt (by omega), Nat.mod_eq_of_lt (by omega)]
    apply snprintf_fits
    simp only [List.length_append, INET6_ADDRSTRLEN]
    have h6 : "228.0.".toList.length = 6 := rfl
    have h1 : ".".toList.length = 1 := rfl
    omega
  · have hne : ¬ af = AF_INET := by rw [haf]; decide
    rw [if_neg hne]
    show snprintf _ _ = _
    unfold fmt_u
    rw [hXm]
    apply snprintf_fits
    simp only [List.length_append, INET6_ADDRSTRLEN]
    have h6 : "ff02::".toList.length = 6 := rfl
    omega

/-- Witness of C3: network identifier 7 against the sample kernel gives
`228.0.0.7` for an IPv4 local address and `ff02::7` for an IPv6 one. -/
theorem generate_multicast_text_witness :
    (generate_multicast Env.sample AF_INET INET6_ADDRSTRLEN).2.1 = "228.0.0.7".toList ∧
    (generate_multicast Env.sample AF_INET6 INET6_ADDRSTRLEN).2.1 = "ff02::7".toList :=
  ⟨(generate_multicast_text Env.sample AF_INET 7 []
      ⟨TIPC_NL_NET_GET, [Attr.nest TIPC_NLA_NET [Attr.u32 TIPC_NLA_NET_ID 7]]⟩
      (Attr.nest TIPC_NLA_NET [Attr.u32 TIPC_NLA_NET_ID 7])
      (by decide) rfl rfl (fun _ h => absurd h (List.not_mem_nil _)) rfl rfl).2.1 rfl,
   (generate_multicast_text Env.sample AF_INET6 7 []
      ⟨TIPC_NL_NET_GET, [Attr.nest TIPC_NLA_NET [Attr.u32 TIPC_NLA_NET_ID 7]]⟩
      (Attr.nest TIPC_NLA_NET [Attr.u32 TIPC_NLA_NET_ID 7])
      (by decide) rfl rfl (fun _ h => absurd h (List.not_mem_nil _)) rfl rfl).2.2 rfl⟩

/-! ## Requests of `bearer set` -/

/-- The run of `cmd_bearer_set_prop` when every step succeeds: the request
built and sent, the status the exchange ends with. -/
theorem cmd_bearer_set_prop_run (env : Env) (cmd : Cmd) (cmdl : Cmdl) (prop : Nat)
    (VALUE media v : CStr)
    (hprop : prop_of_cmd cmd = some prop)
    (hhelp : env.help_flag = false)
    (hval : (shift_cmdl cmdl).1 = some VALUE)
    (hparse : ¬ (env.parse_opts prop_opts (shift_cmdl cmdl).2).1 < 0)
    (hinit : env.msg_init_ok TIPC_NL_BEARER_SET = true)
    (hsel : media_selected (env.parse_opts prop_opts (shift_cmdl cmdl).2).2.1 media v) :
    cmd_bearer_set_prop env cmd cmdl
      = ((env.kernel false ⟨TIPC_NL_BEARER_SET, [Attr.nest TIPC_NLA_BEARER
            [Attr.nest TIPC_NLA_BEARER_PROP [Attr.u32 prop (to_u32 (atoi VALUE))],
             Attr.strz TIPC_NLA_BEARER_NAME
               (snprintf TIPC_MAX_BEARER_NAME (media ++ ":".toList ++ v))]]⟩).final,
         (env.parse_opts prop_opts (shift_cmdl cmdl).2).2.2,
         [Event.parse_opts, Event.doit ⟨TIPC_NL_BEARER_SET, [Attr.nest TIPC_NLA_BEARER
            [Attr.nest TIPC_NLA_BEARER_PROP [Attr.u32 prop (to_u32 (atoi VALUE))],
             Attr.strz TIPC_NLA_BEARER_NAME
               (snprintf TIPC_MAX_BEARER_NAME (media ++ ":".toList ++ v))]]⟩]) := by
  have hi : msg_init env TIPC_NL_BEARER_SET = some ⟨TIPC_NL_BEARER_SET, []⟩ := by
    simp [msg_init, hinit]
  have hlt : ¬ cmdl.optind ≥ cmdl.argc := by
    intro hge
    have hnone : (shift_cmdl cmdl).1 = none := by
      unfold shift_cmdl
      rw [if_neg (by omega)]
    rw [hnone] at hval
    cases hval
  rcases hsel with ⟨hm, hmedia, hdev⟩ | ⟨hm, hmedia, hname⟩
  · subst hm
    simp only [cmd_bearer_set_prop, hprop, hhelp, hlt, hval, hparse, hi, hmedia, hdev,
      add_l2_bearer, msg_doit_cb_null]
    simp [mnl_attr_nest_start, mnl_attr_nest_end, mnl_attr_put, mnl_attr_put_u32,
      mnl_attr_put_strz]
  · subst hm
    simp only [cmd_bearer_set_prop, hprop, hhelp, hlt, hval, hparse, hi, hmedia, hname,
      add_udp_bearer, msg_doit_cb_null]
    simp [mnl_attr_nest_start, mnl_attr_nest_end, mnl_attr_put, mnl_attr_put_u32,
      mnl_attr_put_strz]

/-- Claim C5, as amended: for each property name (priority, tolerance,
window: three pairwise distinct attribute codes), each VALUE token and each
valid media selection (eth with device `v`, or udp with name `v`),
`bearer set` sends one set request whose only top-level attribute is the
bearer container, holding a properties container with exactly one attribute,
of the property's code and of value `atoi(VALUE)` converted to unsigned 32
bits, and then the bearer name. The value is VALUE itself when the token is
the decimal numeral of an integer from 0 to 2^31 - 1, and VALUE + 2^32 when
the token is a minus sign and the numeral of an integer from 1 to 2^31. -/
theorem set_prop_request (env : Env) (cmd : Cmd) (cmdl : Cmdl) (prop : Nat)
    (VALUE media v : CStr)
    (hp : (cmd.cmd = "priority".toList ∧ prop = TIPC_NLA_PROP_PRIO) ∨
      (cmd.cmd = "tolerance".toList ∧ prop = TIPC_NLA_PROP_TOL) ∨
      (cmd.cmd = "window".toList ∧ prop = TIPC_NLA_PROP_WIN))
    (hhelp : env.help_flag = false)
    (hval : (shift_cmdl cmdl).1 = some VALUE)
    (hparse : 0 ≤ (env.parse_opts prop_opts (shift_cmdl cmdl).2).1)
    (hinit : env.msg_init_ok TIPC_NL_BEARER_SET = true)
    (hsel : media_selected (env.parse_opts prop_opts (shift_cmdl cmdl).2).2.1 media v) :
    ∃ req, req = ⟨TIPC_NL_BEARER_SET, [Attr.nest TIPC_NLA_BEARER
          [Attr.nest TIPC_NLA_BEARER_PROP [Attr.u32 prop (to_u32 (atoi VALUE))],
           Attr.strz TIPC_NLA_BEARER_NAME
             (snprintf TIPC_MAX_BEARER_NAME (media ++ ":".toList ++ v))]]⟩ ∧
      cmd_bearer_set_prop env cmd cmdl
        = ((env.kernel false req).final, (env.parse_opts prop_opts (shift_cmdl cmdl).2).2.2,
            [Event.parse_opts, Event.doit req]) ∧
      (∀ n : Nat, n < 2147483648 → VALUE = (Nat.repr n).toList → to_u32 (atoi VALUE) = n) ∧
      (∀ n : Nat, 0 < n → n ≤ 2147483648 → VALUE = '-' :: (Nat.repr n).toList →
        to_u32 (atoi VALUE) = 4294967296 - n) ∧
      TIPC_NLA_PROP_PRIO ≠ TIPC_NLA_PROP_TOL ∧ TIPC_NLA_PROP_PRIO ≠ TIPC_NLA_PROP_WIN ∧
      TIPC_NLA_PROP_TOL ≠ TIPC_NLA_PROP_WIN := by
  have hprop : prop_of_cmd cmd = some prop := by
    rcases hp with ⟨hc, hpr⟩ | ⟨hc, hpr⟩ | ⟨hc, hpr⟩ <;> subst hpr <;> simp [prop_of_cmd, hc]
  refine ⟨_, rfl, ?_, ?_, ?_, by decide, by decide, by decide⟩
  · exact cmd_bearer_set_prop_run env cmd cmdl prop VALUE media v hprop hhelp hval
      (by omega) hinit hsel
  · intro n hn hV
    rw [hV, atoi_repr n hn]
    unfold to_u32
    omega
  · intro n hpos hn hV
    rw [hV, atoi_neg_repr n hn]
    unfold to_u32
    omega

/-- Witness of C5: `bearer set priority 5 media eth device eth0` against the
sample kernel sends the bearer name `eth:eth0` and the properties container
with priority 5. -/
theorem set_prop_request_witness :
    cmd_bearer_set_prop Env.sample ⟨"priority".toList, "cmd_bearer_set_help"⟩
        (Cmdl.of ["5".toList, "media".toList, "eth".toList, "device".toList, "eth0".toList])
      = (0, ⟨5, 5, ["5".toList, "media".toList, "eth".toList, "device".toList, "eth0".toList]⟩,
          [Event.parse_opts, Event.doit ⟨TIPC_NL_BEARER_SET, [Attr.nest TIPC_NLA_BEARER
            [Attr.nest TIPC_NLA_BEARER_PROP [Attr.u32 TIPC_NLA_PROP_PRIO 5],
             Attr.strz TIPC_NLA_BEARER_NAME "eth:eth0".toList]]⟩]) := by
  obtain ⟨req, hreq, hrun, -⟩ := set_prop_request Env.sample
    ⟨"priority".toList, "cmd_bearer_set_help"⟩
    (Cmdl.of ["5".toList, "media".toList, "eth".toList, "device".toList, "eth0".toList])
    TIPC_NLA_PROP_PRIO "5".toList "eth".toList "eth0".toList
    (Or.inl ⟨rfl, rfl⟩) rfl rfl (by decide) rfl (by decide)
  rw [hrun, hreq]
  rfl

/-- Counterexample to C5 as stated: `bearer set priority -1 media eth device
eth0` has the integer token -1 as VALUE, and the request sent carries the
priority 4294967295, which is not -1. -/
theorem set_prop_value_counterexample :
    strtol "-1".toList = -1 ∧
    (requests (cmd_bearer_set_prop Env.sample ⟨"priority".toList, "cmd_bearer_set_help"⟩
      (Cmdl.of ["-1".toList, "media".toList, "eth".toList, "device".toList,
        "eth0".toList])).2.2).map (request_prop TIPC_NLA_PROP_PRIO) = [some 4294967295] ∧
    ((4294967295 : Nat) : Int) ≠ -1 := by
  decide

/-! ## Requests of `bearer enable` -/

/-- The run of `cmd_bearer_enable` for media eth when every step succeeds:
the request built and the hand-over to `msg_doit`. -/
theorem cmd_bearer_enable_eth_run (env : Env) (cmd : Cmd) (cmdl : Cmdl) (D : CStr)
    (hhelp : env.help_flag = false)
    (hparse : ¬ (env.parse_opts enable_opts cmdl).1 < 0)
    (hinit : env.msg_init_ok TIPC_NL_BEARER_ENABLE = true)
    (hmedia : get_opt (env.parse_opts enable_opts cmdl).2.1 "media".toList = some "eth".toList)
    (hdev : get_opt (env.parse_opts enable_opts cmdl).2.1 "device".toList = some D) :
    cmd_bearer_enable env cmd cmdl
      = ((msg_doit env ⟨TIPC_NL_BEARER_ENABLE, [Attr.nest TIPC_NLA_BEARER
            ((match get_opt (env.parse_opts enable_opts cmdl).2.1 "domain".toList with
              | some d => [Attr.u32 TIPC_NLA_BEARER_DOMAIN (to_u32 (atoi d))]
              | none => []) ++
             (match get_opt (env.parse_opts enable_opts cmdl).2.1 "priority".toList with
              | some p => [Attr.nest TIPC_NLA_BEARER_PROP
                  [Attr.u32 TIPC_NLA_PROP_PRIO (to_u32 (atoi p))]]
              | none => []) ++
             [Attr.strz TIPC_NLA_BEARER_NAME
                (snprintf TIPC_MAX_BEARER_NAME ("eth:".toList ++ D))])]⟩ cb_null ()).1,
         (env.parse_opts enable_opts cmdl).2.2,
         Event.parse_opts :: (msg_doit env ⟨TIPC_NL_BEARER_ENABLE, [Attr.nest TIPC_NLA_BEARER
            ((match get_opt (env.parse_opts enable_opts cmdl).2.1 "domain".toList with
              | some d => [Attr.u32 TIPC_NLA_BEARER_DOMAIN (to_u32 (atoi d))]
              | none => []) ++
             (match get_opt (env.parse_opts enable_opts cmdl).2.1 "priority".toList with
              | some p => [Attr.nest TIPC_NLA_BEARER_PROP
                  [Attr.u32 TIPC_NLA_PROP_PRIO (to_u32 (atoi p))]]
              | none => []) ++
             [Attr.strz TIPC_NLA_BEARER_NAME
                (snprintf TIPC_MAX_BEARER_NAME ("eth:".toList ++ D))])]⟩ cb_null ()).2.2) := by
  have hi : msg_init env TIPC_NL_BEARER_ENABLE = some ⟨TIPC_NL_BEARER_ENABLE, []⟩ := by
    simp [msg_init, hinit]
  cases hd : get_opt (env.parse_opts enable_opts cmdl).2.1 "domain".toList <;>
    cases hpr : get_opt (env.parse_opts enable_opts cmdl).2.1 "priority".toList <;>
    simp only [cmd_bearer_enable, hparse, hmedia, hi, hhelp, enable_l2_bearer, hdev, hd, hpr] <;>
    simp [mnl_attr_nest_start, mnl_attr_nest_end, mnl_attr_put, mnl_attr_put_u32,
      mnl_attr_put_strz]

/-- A successful `cmd_bearer_enable` for media eth ran without help, with the
options parsed and the request initialised. -/
theorem cmd_bearer_enable_eth_ok (env : Env) (cmd : Cmd) (cmdl : Cmdl)
    (hok : (cmd_bearer_enable env cmd cmdl).1 = 0)
    (hmedia : get_opt (env.parse_opts enable_opts cmdl).2.1 "media".toList = some "eth".toList) :
    env.help_flag = false ∧ ¬ (env.parse_opts enable_opts cmdl).1 < 0 ∧
      env.msg_init_ok TIPC_NL_BEARER_ENABLE = true := by
  by_cases hp : (env.parse_opts enable_opts cmdl).1 < 0
  · simp only [cmd_bearer_enable, hp] at hok
    simp [EINVAL] at hok
  · by_cases hinit : env.msg_init_ok TIPC_NL_BEARER_ENABLE = true
    · cases hh : env.help_flag with
      | false => exact ⟨rfl, hp, hinit⟩
      | true =>
        have hi : msg_init env TIPC_NL_BEARER_ENABLE = some ⟨TIPC_NL_BEARER_ENABLE, []⟩ := by
          simp [msg_init, hinit]
        simp only [cmd_bearer_enable, hp, hmedia, hi, hh] at hok
        simp [EINVAL] at hok
    · have hi : msg_init env TIPC_NL_BEARER_ENABLE = none := by
        simp [msg_init, hinit]
      simp only [cmd_bearer_enable, hp, hmedia, hi] at hok
      simp at hok

/-- Claim C6: for every successful `bearer enable` with media eth and device
`D`, exactly one request is sent, an enable request whose only top-level
attribute is the bearer container; the container holds the discovery domain
exactly when the `domain` option was supplied, a properties container exactly
when the `priority` option was supplied (then with the priority attribute and
nothing else), and always the bearer name. -/
theorem enable_eth_request (env : Env) (cmd : Cmd) (cmdl : Cmdl) (D : CStr)
    (hok : (cmd_bearer_enable env cmd cmdl).1 = 0)
    (hmedia : get_opt (env.parse_opts enable_opts cmdl).2.1 "media".toList = some "eth".toList)
    (hdev : get_opt (env.parse_opts enable_opts cmdl).2.1 "device".toList = some D) :
    ∃ body, requests (cmd_bearer_enable env cmd cmdl).2.2
        = [⟨TIPC_NL_BEARER_ENABLE, [Attr.nest TIPC_NLA_BEARER body]⟩] ∧
      body =
        (match get_opt (env.parse_opts enable_opts cmdl).2.1 "domain".toList with
          | some d => [Attr.u32 TIPC_NLA_BEARER_DOMAIN (to_u32 (atoi d))]
          | none => []) ++
        (match get_opt (env.parse_opts enable_opts cmdl).2.1 "priority".toList with
          | some p => [Attr.nest TIPC_NLA_BEARER_PROP
              [Attr.u32 TIPC_NLA_PROP_PRIO (to_u32 (atoi p))]]
          | none => []) ++
        [Attr.strz TIPC_NLA_BEARER_NAME (snprintf TIPC_MAX_BEARER_NAME ("eth:".toList ++ D))] ∧
      ((∃ a ∈ body, mnl_attr_get_type a = TIPC_NLA_BEARER_PROP) ↔
        (get_opt (env.parse_opts enable_opts cmdl).2.1 "priority".toList).isSome) ∧
      (∀ a ∈ body, mnl_attr_get_type a = TIPC_NLA_BEARER_PROP →
        ∃ v, a = Attr.nest TIPC_NLA_BEARER_PROP [Attr.u32 TIPC_NLA_PROP_PRIO v]) ∧
      ((∃ a ∈ body, mnl_attr_get_type a = TIPC_NLA_BEARER_DOMAIN) ↔
        (get_opt (env.parse_opts enable_opts cmdl).2.1 "domain".toList).isSome) ∧
      Attr.strz TIPC_NLA_BEARER_NAME (snprintf TIPC_MAX_BEARER_NAME ("eth:".toList ++ D))
        ∈ body := by
  obtain ⟨hhelp, hparse, hinit⟩ := cmd_bearer_enable_eth_ok env cmd cmdl hok hmedia
  refine ⟨_, ?_, rfl, ?_, ?_, ?_, ?_⟩
  · rw [cmd_bearer_enable_eth_run env cmd cmdl D hhelp hparse hinit hmedia hdev,
      msg_doit_cb_null]
    rfl
  · cases get_opt (env.parse_opts enable_opts cmdl).2.1 "domain".toList <;>
      cases get_opt (env.parse_opts enable_opts cmdl).2.1 "priority".toList <;>
      simp [mnl_attr_get_type, TIPC_NLA_BEARER_PROP, TIPC_NLA_BEARER_DOMAIN,
        TIPC_NLA_BEARER_NAME]
  · cases get_opt (env.parse_opts enable_opts cmdl).2.1 "domain".toList <;>
      cases get_opt (env.parse_opts enable_opts cmdl).2.1 "priority".toList <;>
      simp [mnl_attr_get_type, TIPC_NLA_BEARER_PROP, TIPC_NLA_BEARER_DOMAIN,
        TIPC_NLA_BEARER_NAME]
  · cases get_opt (env.parse_opts enable_opts cmdl).2.1 "domain".toList <;>
      cases get_opt (env.parse_opts enable_opts cmdl).2.1 "priority".toList <;>
      simp [mnl_attr_get_type, TIPC_NLA_BEARER_PROP, TIPC_NLA_BEARER_DOMAIN,
        TIPC_NLA_BEARER_NAME]
  · simp

/-- Witness of C6: `bearer enable media eth device eth0` against the sample
kernel sends the bearer name `eth:eth0` and no properties container; with
`priority 3 domain 9` added, the domain and a properties container holding
the priority come before the name. -/
theorem enable_eth_request_witness :
    requests (cmd_bearer_enable Env.sample ⟨"enable".toList, "cmd_bearer_enable_help"⟩
      (Cmdl.of ["media".toList, "eth".toList, "device".toList, "eth0".toList])).2.2
      = [⟨TIPC_NL_BEARER_ENABLE, [Attr.nest TIPC_NLA_BEARER
          [Attr.strz TIPC_NLA_BEARER_NAME "eth:eth0".toList]]⟩] ∧
    requests (cmd_bearer_enable Env.sample ⟨"enable".toList, "cmd_bearer_enable_help"⟩
      (Cmdl.of ["media".toList, "eth".toList, "device".toList, "eth0".toList,
        "priority".toList, "3".toList, "domain".toList, "9".toList])).2.2
      = [⟨TIPC_NL_BEARER_ENABLE, [Attr.nest TIPC_NLA_BEARER
          [Attr.u32 TIPC_NLA_BEARER_DOMAIN 9,
           Attr.nest TIPC_NLA_BEARER_PROP [Attr.u32 TIPC_NLA_PROP_PRIO 3],
           Attr.strz TIPC_NLA_BEARER_NAME "eth:eth0".toList]]⟩] := by
  obtain ⟨b1, hreq1, hb1, -⟩ := enable_eth_request Env.sample
    ⟨"enable".toList, "cmd_bearer_enable_help"⟩
    (Cmdl.of ["media".toList, "eth".toList, "device".toList, "eth0".toList])
    "eth0".toList (by decide) (by decide) (by decide)
  obtain ⟨b2, hreq2, hb2, -⟩ := enable_eth_request Env.sample
    ⟨"enable".toList, "cmd_bearer_enable_help"⟩
    (Cmdl.of ["media".toList, "eth".toList, "device".toList, "eth0".toList,
      "priority".toList, "3".toList, "domain".toList, "9".toList])
    "eth0".toList (by decide) (by decide) (by decide)
  rw [hreq1, hb1, hreq2, hb2]
  exact ⟨rfl, rfl⟩

/-! ## Decoders -/

/-- A table entry is absent exactly when no attribute has the code. -/
theorem parse_attrs_eq_none (as : List Attr) (t : Nat) :
    parse_attrs as t = none ↔ ∀ a ∈ as, mnl_attr_get_type a ≠ t := by
  induction as with
  | nil => simp [parse_attrs]
  | cons a as ih =>
    unfold parse_attrs
    cases h : parse_attrs as t with
    | some b =>
      have hne : ¬ ∀ a ∈ as, mnl_attr_get_type a ≠ t := fun hall => by
        rw [ih.mpr hall] at h
        cases h
      simp only [List.mem_cons, forall_eq_or_imp]
      constructor
      · intro hc; cases hc
      · intro hc; exact absurd hc.2 hne
    | none =>
      have hall := ih.mp h
      by_cases hty : mnl_attr_get_type a = t
      · simp [hty]
      · simpa [hty] using hall

/-- The run of `cmd_bearer_get_prop` up to the exchange: the request built and
handed to `msg_doit` together with the decoder `bearer_get_cb` at the code of
the property the command names. -/
theorem cmd_bearer_get_prop_run (env : Env) (cmd : Cmd) (cmdl : Cmdl) (prop : Nat)
    (media v : CStr)
    (hprop : prop_of_cmd cmd = some prop)
    (hhelp : env.help_flag = false)
    (hparse : ¬ (env.parse_opts prop_opts cmdl).1 < 0)
    (hinit : env.msg_init_ok TIPC_NL_BEARER_GET = true)
    (hsel : media_selected (env.parse_opts prop_opts cmdl).2.1 media v) :
    cmd_bearer_get_prop env cmd cmdl
      = ((msg_doit env ⟨TIPC_NL_BEARER_GET, [Attr.nest TIPC_NLA_BEARER
            [Attr.strz TIPC_NLA_BEARER_NAME
              (snprintf TIPC_MAX_BEARER_NAME (media ++ ":".toList ++ v))]]⟩
            (bearer_get_cb prop) ()).1,
         (env.parse_opts prop_opts cmdl).2.2,
         Event.parse_opts :: (msg_doit env ⟨TIPC_NL_BEARER_GET, [Attr.nest TIPC_NLA_BEARER
            [Attr.strz TIPC_NLA_BEARER_NAME
              (snprintf TIPC_MAX_BEARER_NAME (media ++ ":".toList ++ v))]]⟩
            (bearer_get_cb prop) ()).2.2) := by
  have hi : msg_init env TIPC_NL_BEARER_GET = some ⟨TIPC_NL_BEARER_GET, []⟩ := by
    simp [msg_init, hinit]
  rcases hsel with ⟨hm, hmedia, hdev⟩ | ⟨hm, hmedia, hname⟩
  · subst hm
    simp only [cmd_bearer_get_prop, hprop, hhelp, hparse, hi, hmedia, hdev, add_l2_bearer]
    simp [mnl_attr_nest_start, mnl_attr_nest_end, mnl_attr_put, mnl_attr_put_strz]
  · subst hm
    simp only [cmd_bearer_get_prop, hprop, hhelp, hparse, hi, hmedia, hname, add_udp_bearer]
    simp [mnl_attr_nest_start, mnl_attr_nest_end, mnl_attr_put, mnl_attr_put_strz]

/-- Claim C7: for each property p of priority, tolerance and window and each
reply message, `bearer get p` hands its request to `msg_doit` with the
decoder `bearer_get_cb` at p's attribute code. On a reply whose bearer
container holds a properties container holding the attribute of that code the
decoder returns `MNL_CB_OK` and prints exactly the decimal unsigned value of
the attribute, on a line, and the command ends with the status of the
exchange; when the message has no bearer container, or the bearer container
no properties container, or the properties container no attribute of the
code, the decoder returns `MNL_CB_ERROR` and prints nothing, and so does the
command. -/
theorem bearer_get_cb_decodes (env : Env) (cmd : Cmd) (cmdl : Cmdl) (media dv : CStr)
    (prop : Nat) (nlh : Nlmsg) :
    (prop_of_cmd ⟨"priority".toList, "cmd_bearer_get_help"⟩ = some TIPC_NLA_PROP_PRIO ∧
      prop_of_cmd ⟨"tolerance".toList, "cmd_bearer_get_help"⟩ = some TIPC_NLA_PROP_TOL ∧
      prop_of_cmd ⟨"window".toList, "cmd_bearer_get_help"⟩ = some TIPC_NLA_PROP_WIN) ∧
    (∀ bearer props v, v < 4294967296 →
      parse_attrs nlh.attrs TIPC_NLA_BEARER = some bearer →
      parse_attrs (mnl_attr_nested bearer) TIPC_NLA_BEARER_PROP = some props →
      parse_attrs (mnl_attr_nested props) prop = some (Attr.u32 prop v) →
      bearer_get_cb prop nlh ()
        = (MNL_CB_OK, (), [Event.stdout ((Nat.repr v).toList ++ "\n".toList)])) ∧
    (((∀ a ∈ nlh.attrs, mnl_attr_get_type a ≠ TIPC_NLA_BEARER) ∨
      (∃ bearer, parse_attrs nlh.attrs TIPC_NLA_BEARER = some bearer ∧
        ∀ a ∈ mnl_attr_nested bearer, mnl_attr_get_type a ≠ TIPC_NLA_BEARER_PROP) ∨
      (∃ bearer props, parse_attrs nlh.attrs TIPC_NLA_BEARER = some bearer ∧
        parse_attrs (mnl_attr_nested bearer) TIPC_NLA_BEARER_PROP = some props ∧
        ∀ a ∈ mnl_attr_nested props, mnl_attr_get_type a ≠ prop)) →
      bearer_get_cb prop nlh () = (MNL_CB_ERROR, (), [])) ∧
    (((cmd.cmd = "priority".toList ∧ prop = TIPC_NLA_PROP_PRIO) ∨
        (cmd.cmd = "tolerance".toList ∧ prop = TIPC_NLA_PROP_TOL) ∨
        (cmd.cmd = "window".toList ∧ prop = TIPC_NLA_PROP_WIN)) →
      env.help_flag = false →
      0 ≤ (env.parse_opts prop_opts cmdl).1 →
      env.msg_init_ok TIPC_NL_BEARER_GET = true →
      media_selected (env.parse_opts prop_opts cmdl).2.1 media dv →
      ∃ req, req = ⟨TIPC_NL_BEARER_GET, [Attr.nest TIPC_NLA_BEARER
            [Attr.strz TIPC_NLA_BEARER_NAME
              (snprintf TIPC_MAX_BEARER_NAME (media ++ ":".toList ++ dv))]]⟩ ∧
        cmd_bearer_get_prop env cmd cmdl
          = ((mnl_cb_run (bearer_get_cb prop) (env.kernel false req).replies
                (env.kernel false req).final ()).1,
             (env.parse_opts prop_opts cmdl).2.2,
             Event.parse_opts :: Event.doit req ::
               (mnl_cb_run (bearer_get_cb prop) (env.kernel false req).replies
                 (env.kernel false req).final ()).2.2) ∧
        ((env.kernel false req).replies = [nlh] →
          (∀ bearer props v, v < 4294967296 →
            parse_attrs nlh.attrs TIPC_NLA_BEARER = some bearer →
            parse_attrs (mnl_attr_nested bearer) TIPC_NLA_BEARER_PROP = some props →
            parse_attrs (mnl_attr_nested props) prop = some (Attr.u32 prop v) →
            cmd_bearer_get_prop env cmd cmdl
              = ((env.kernel false req).final, (env.parse_opts prop_opts cmdl).2.2,
                  [Event.parse_opts, Event.doit req,
                   Event.stdout ((Nat.repr v).toList ++ "\n".toList)])) ∧
          (((∀ a ∈ nlh.attrs, mnl_attr_get_type a ≠ TIPC_NLA_BEARER) ∨
            (∃ bearer, parse_attrs nlh.attrs TIPC_NLA_BEARER = some bearer ∧
              ∀ a ∈ mnl_attr_nested bearer, mnl_attr_get_type a ≠ TIPC_NLA_BEARER_PROP) ∨
            (∃ bearer props, parse_attrs nlh.attrs TIPC_NLA_BEARER = some bearer ∧
              parse_attrs (mnl_attr_nested bearer) TIPC_NLA_BEARER_PROP = some props ∧
              ∀ a ∈ mnl_attr_nested props, mnl_attr_get_type a ≠ prop)) →
            cmd_bearer_get_prop env cmd cmdl
              = (MNL_CB_ERROR, (env.parse_opts prop_opts cmdl).2.2,
                  [Event.parse_opts, Event.doit req])))) := by
  have hok : ∀ bearer props v, v < 4294967296 →
      parse_attrs nlh.attrs TIPC_NLA_BEARER = some bearer →
      parse_attrs (mnl_attr_nested bearer) TIPC_NLA_BEARER_PROP = some props →
      parse_attrs (mnl_attr_nested props) prop = some (Attr.u32 prop v) →
      bearer_get_cb prop nlh ()
        = (MNL_CB_OK, (), [Event.stdout ((Nat.repr v).toList ++ "\n".toList)]) := by
    intro bearer props v hv hb hp ha
    unfold bearer_get_cb
    rw [hb]
    simp only [hp, ha]
    simp [mnl_attr_get_u32, fmt_u, Nat.mod_eq_of_lt hv]
  have herr : ((∀ a ∈ nlh.attrs, mnl_attr_get_type a ≠ TIPC_NLA_BEARER) ∨
      (∃ bearer, parse_attrs nlh.attrs TIPC_NLA_BEARER = some bearer ∧
        ∀ a ∈ mnl_attr_nested bearer, mnl_attr_get_type a ≠ TIPC_NLA_BEARER_PROP) ∨
      (∃ bearer props, parse_attrs nlh.attrs TIPC_NLA_BEARER = some bearer ∧
        parse_attrs (mnl_attr_nested bearer) TIPC_NLA_BEARER_PROP = some props ∧
        ∀ a ∈ mnl_attr_nested props, mnl_attr_get_type a ≠ prop)) →
      bearer_get_cb prop nlh () = (MNL_CB_ERROR, (), []) := by
    intro h
    unfold bearer_get_cb
    rcases h with h | ⟨bearer, hb, h⟩ | ⟨bearer, props, hb, hp, h⟩
    · rw [(parse_attrs_eq_none _ _).mpr h]
    · rw [hb]
      simp only [(parse_attrs_eq_none _ _).mpr h]
    · rw [hb]
      simp only [hp, (parse_attrs_eq_none _ _).mpr h]
  refine ⟨⟨by decide, by decide, by decide⟩, hok, herr, ?_⟩
  intro hp hhelp hparse hinit hsel
  have hprop : prop_of_cmd cmd = some prop := by
    rcases hp with ⟨hc, hpr⟩ | ⟨hc, hpr⟩ | ⟨hc, hpr⟩ <;> subst hpr <;> simp [prop_of_cmd, hc]
  have hrun := cmd_bearer_get_prop_run env cmd cmdl prop media dv hprop hhelp (by omega)
    hinit hsel
  refine ⟨_, rfl, ?_, fun hone => ⟨?_, ?_⟩⟩
  · rw [hrun]
    rfl
  · intro bearer props v hv hb hpp ha
    rw [hrun]
    unfold msg_doit
    rw [hone]
    simp only [mnl_cb_run, hok bearer props v hv hb hpp ha]
    have hgt : ¬ (MNL_CB_OK ≤ 0) := by decide
    simp only [hgt, if_false, List.append_nil]
  · intro h
    rw [hrun]
    unfold msg_doit
    rw [hone]
    simp only [mnl_cb_run, herr h]
    have hle : MNL_CB_ERROR ≤ 0 := by decide
    simp only [hle, if_true]

/-- Witness of C7: against a kernel that answers with one reply, a bearer
whose properties are priority 10 and tolerance 1500, `bearer get tolerance
media eth device eth0` prints `1500` and returns 0, and `bearer get window`
on the same reply is a decode error that prints nothing; a reply with an
empty bearer container makes the decoder fail the same way. -/
theorem bearer_get_cb_decodes_witness :
    cmd_bearer_get_prop
        { Env.sample with kernel := fun _ _ =>
            ⟨[⟨TIPC_NL_BEARER_GET, [Attr.nest TIPC_NLA_BEARER
                [Attr.strz TIPC_NLA_BEARER_NAME "eth:eth0".toList,
                 Attr.nest TIPC_NLA_BEARER_PROP
                   [Attr.u32 TIPC_NLA_PROP_PRIO 10, Attr.u32 TIPC_NLA_PROP_TOL 1500]]]⟩], 0⟩ }
        ⟨"tolerance".toList, "cmd_bearer_get_help"⟩
        (Cmdl.of ["media".toList, "eth".toList, "device".toList, "eth0".toList])
      = (0, ⟨4, 4, ["media".toList, "eth".toList, "device".toList, "eth0".toList]⟩,
          [Event.parse_opts,
           Event.doit ⟨TIPC_NL_BEARER_GET, [Attr.nest TIPC_NLA_BEARER
             [Attr.strz TIPC_NLA_BEARER_NAME "eth:eth0".toList]]⟩,
           Event.stdout "1500\n".toList]) ∧
    cmd_bearer_get_prop
        { Env.sample with kernel := fun _ _ =>
            ⟨[⟨TIPC_NL_BEARER_GET, [Attr.nest TIPC_NLA_BEARER
                [Attr.strz TIPC_NLA_BEARER_NAME "eth:eth0".toList,
                 Attr.nest TIPC_NLA_BEARER_PROP
                   [Attr.u32 TIPC_NLA_PROP_PRIO 10, Attr.u32 TIPC_NLA_PROP_TOL 1500]]]⟩], 0⟩ }
        ⟨"window".toList, "cmd_bearer_get_help"⟩
        (Cmdl.of ["media".toList, "eth".toList, "device".toList, "eth0".toList])
      = (MNL_CB_ERROR, ⟨4, 4, ["media".toList, "eth".toList, "device".toList, "eth0".toList]⟩,
          [Event.parse_opts,
           Event.doit ⟨TIPC_NL_BEARER_GET, [Attr.nest TIPC_NLA_BEARER
             [Attr.strz TIPC_NLA_BEARER_NAME "eth:eth0".toList]]⟩]) ∧
    bearer_get_cb TIPC_NLA_PROP_PRIO ⟨TIPC_NL_BEARER_GET, [Attr.nest TIPC_NLA_BEARER []]⟩ ()
      = (MNL_CB_ERROR, (), []) := by
  refine ⟨?_, ?_, ?_⟩
  · obtain ⟨req, hreq, -, hone⟩ := (bearer_get_cb_decodes
      { Env.sample with kernel := fun _ _ =>
          ⟨[⟨TIPC_NL_BEARER_GET, [Attr.nest TIPC_NLA_BEARER
              [Attr.strz TIPC_NLA_BEARER_NAME "eth:eth0".toList,
               Attr.nest TIPC_NLA_BEARER_PROP
                 [Attr.u32 TIPC_NLA_PROP_PRIO 10, Attr.u32 TIPC_NLA_PROP_TOL 1500]]]⟩], 0⟩ }
      ⟨"tolerance".toList, "cmd_bearer_get_help"⟩
      (Cmdl.of ["media".toList, "eth".toList, "device".toList, "eth0".toList])
      "eth".toList "eth0".toList TIPC_NLA_PROP_TOL
      ⟨TIPC_NL_BEARER_GET, [Attr.nest TIPC_NLA_BEARER
        [Attr.strz TIPC_NLA_BEARER_NAME "eth:eth0".toList,
         Attr.nest TIPC_NLA_BEARER_PROP
           [Attr.u32 TIPC_NLA_PROP_PRIO 10, Attr.u32 TIPC_NLA_PROP_TOL 1500]]]⟩).2.2.2
      (Or.inr (Or.inl ⟨rfl, rfl⟩)) rfl (by decide) rfl (by decide)
    rw [(hone rfl).1 _ _ 1500 (by decide) rfl rfl rfl, hreq]
    rfl
  · obtain ⟨req, hreq, -, hone⟩ := (bearer_get_cb_decodes
      { Env.sample with kernel := fun _ _ =>
          ⟨[⟨TIPC_NL_BEARER_GET, [Attr.nest TIPC_NLA_BEARER
              [Attr.strz TIPC_NLA_BEARER_NAME "eth:eth0".toList,
               Attr.nest TIPC_NLA_BEARER_PROP
                 [Attr.u32 TIPC_NLA_PROP_PRIO 10, Attr.u32 TIPC_NLA_PROP_TOL 1500]]]⟩], 0⟩ }
      ⟨"window".toList, "cmd_bearer_get_help"⟩
      (Cmdl.of ["media".toList, "eth".toList, "device".toList, "eth0".toList])
      "eth".toList "eth0".toList TIPC_NLA_PROP_WIN
      ⟨TIPC_NL_BEARER_GET, [Attr.nest TIPC_NLA_BEARER
        [Attr.strz TIPC_NLA_BEARER_NAME "eth:eth0".toList,
         Attr.nest TIPC_NLA_BEARER_PROP
           [Attr.u32 TIPC_NLA_PROP_PRIO 10, Attr.u32 TIPC_NLA_PROP_TOL 1500]]]⟩).2.2.2
      (Or.inr (Or.inr ⟨rfl, rfl⟩)) rfl (by decide) rfl (by decide)
    rw [(hone rfl).2 (Or.inr (Or.inr ⟨_, _, rfl, rfl, by decide⟩)), hreq]
    rfl
  · exact (bearer_get_cb_decodes Env.sample ⟨[], ""⟩ (Cmdl.of []) [] [] TIPC_NLA_PROP_PRIO
      ⟨TIPC_NL_BEARER_GET, [Attr.nest TIPC_NLA_BEARER []]⟩).2.2.1
      (Or.inr (Or.inl ⟨_, rfl, by decide⟩))

/-- What `bearer_list_cb` does with one message, by the name it carries. -/
theorem bearer_list_cb_eq (nlh : Nlmsg) :
    (∀ n, bearer_name nlh = some n →
      bearer_list_cb nlh () = (MNL_CB_OK, (), [Event.stdout (n ++ "\n".toList)])) ∧
    (bearer_name nlh = none →
      (bearer_list_cb nlh ()).1 = MNL_CB_ERROR ∧
      stdout_lines (bearer_list_cb nlh ()).2.2 = [] ∧
      (stderr_lines (bearer_list_cb nlh ()).2.2).length = 1 ∧
      requests (bearer_list_cb nlh ()).2.2 = []) := by
  unfold bearer_name bearer_list_cb
  cases h1 : parse_attrs nlh.attrs TIPC_NLA_BEARER with
  | none => simp [stdout_lines, stderr_lines, requests]
  | some bearer =>
    cases h2 : parse_attrs (mnl_attr_nested bearer) TIPC_NLA_BEARER_NAME with
    | none => simp only [h2]; simp [stdout_lines, stderr_lines, requests]
    | some a => simp only [h2]; simp

/-- The run of `bearer_list_cb` over a stream that ends normally. -/
theorem mnl_cb_run_bearer_list (msgs : List Nlmsg) :
    stdout_lines (mnl_cb_run bearer_list_cb msgs 0 ()).2.2
      = ((msgs.takeWhile (fun m => (bearer_name m).isSome)).filterMap bearer_name).map
          (fun n => n ++ "\n".toList) ∧
    ((mnl_cb_run bearer_list_cb msgs 0 ()).1 = 0 ↔ ∀ m ∈ msgs, (bearer_name m).isSome) ∧
    (stderr_lines (mnl_cb_run bearer_list_cb msgs 0 ()).2.2).length ≤ 1 ∧
    requests (mnl_cb_run bearer_list_cb msgs 0 ()).2.2 = [] := by
  induction msgs with
  | nil => simp [mnl_cb_run, stdout_lines, stderr_lines, requests]
  | cons m ms ih =>
    unfold mnl_cb_run
    cases hn : bearer_name m with
    | none =>
      obtain ⟨h1, h2, h3, h4⟩ := (bearer_list_cb_eq m).2 hn
      have hle : (bearer_list_cb m ()).1 ≤ 0 := by rw [h1]; decide
      have hne : (bearer_list_cb m ()).1 ≠ 0 := by rw [h1]; decide
      simp only [hle, if_true]
      refine ⟨?_, ?_, ?_, ?_⟩
      · simp [h2, List.takeWhile, hn]
      · simp [hne, hn]
      · omega
      · exact h4
    | some n =>
      have h := (bearer_list_cb_eq m).1 n hn
      have hgt : ¬ (MNL_CB_OK ≤ 0) := by decide
      simp only [h, hgt, if_false]
      obtain ⟨ih1, ih2, ih3, ih4⟩ := ih
      refine ⟨?_, ?_, ?_, ?_⟩
      · simp [stdout_lines, ih1, List.takeWhile, hn]
      · simp [ih2, hn]
      · simpa [stderr_lines] using ih3
      · simpa [requests] using ih4

/-- Claim C8: for every finite stream of replies to `bearer list` that the
transport ends normally, the lines printed are exactly the bearer names of
the messages before the first one lacking the bearer container or the name
attribute, one per line in arrival order; the command returns 0 exactly when
no message lacks them; at most one diagnostic is written, so no message after
the first bad one is decoded; the only request is the dump. -/
theorem bearer_list_output (env : Env) (cmd : Cmd) (cmdl : Cmdl) (msgs : List Nlmsg)
    (hhelp : env.help_flag = false)
    (hinit : env.msg_init_ok TIPC_NL_BEARER_GET = true)
    (hstream : env.kernel true ⟨TIPC_NL_BEARER_GET, []⟩ = ⟨msgs, 0⟩) :
    stdout_lines (cmd_bearer_list env cmd cmdl).2.2
      = ((msgs.takeWhile (fun m => (bearer_name m).isSome)).filterMap bearer_name).map
          (fun n => n ++ "\n".toList) ∧
    ((cmd_bearer_list env cmd cmdl).1 = 0 ↔ ∀ m ∈ msgs, (bearer_name m).isSome) ∧
    (stderr_lines (cmd_bearer_list env cmd cmdl).2.2).length ≤ 1 ∧
    requests (cmd_bearer_list env cmd cmdl).2.2 = [⟨TIPC_NL_BEARER_GET, []⟩] := by
  obtain ⟨h1, h2, h3, h4⟩ := mnl_cb_run_bearer_list msgs
  have hrun : cmd_bearer_list env cmd cmdl
      = ((mnl_cb_run bearer_list_cb msgs 0 ()).1, cmdl,
          Event.dumpit ⟨TIPC_NL_BEARER_GET, []⟩ :: (mnl_cb_run bearer_list_cb msgs 0 ()).2.2) := by
    simp [cmd_bearer_list, hhelp, msg_init, hinit, msg_dumpit, hstream]
  rw [hrun]
  exact ⟨by simpa [stdout_lines] using h1, h2, by simpa [stderr_lines] using h3,
    by simp [requests, h4]⟩

/-- Witness of C8: the replies `eth:eth0` and `udp:myudp` print exactly these
two lines, in this order, and the listing succeeds. -/
theorem bearer_list_output_witness :
    stdout_lines (cmd_bearer_list
        { Env.sample with kernel := fun _ _ =>
            ⟨[Nlmsg.named "eth:eth0".toList, Nlmsg.named "udp:myudp".toList], 0⟩ }
        ⟨"list".toList, ""⟩ (Cmdl.of [])).2.2
      = ["eth:eth0\n".toList, "udp:myudp\n".toList] ∧
    (cmd_bearer_list
        { Env.sample with kernel := fun _ _ =>
            ⟨[Nlmsg.named "eth:eth0".toList, Nlmsg.named "udp:myudp".toList], 0⟩ }
        ⟨"list".toList, ""⟩ (Cmdl.of [])).1 = 0 :=
  have h := bearer_list_output
    { Env.sample with kernel := fun _ _ =>
        ⟨[Nlmsg.named "eth:eth0".toList, Nlmsg.named "udp:myudp".toList], 0⟩ }
    ⟨"list".toList, ""⟩ (Cmdl.of [])
    [Nlmsg.named "eth:eth0".toList, Nlmsg.named "udp:myudp".toList] rfl rfl rfl
  ⟨h.1.trans (by decide), h.2.1.mpr (by decide)⟩

/-! ## Missing value of `bearer set` -/

/-- Claim C9: for each property name, when help is not requested and no token
remains after the property name, `cmd_bearer_set_prop` returns `-EINVAL`,
leaves the argument cursor as it found it, and its only effect is the
diagnostic "missing value": `parse_opts` has not run, no request was built or
sent. -/
theorem set_prop_missing_value (env : Env) (cmd : Cmd) (cmdl : Cmdl)
    (hp : cmd.cmd = "priority".toList ∨ cmd.cmd = "tolerance".toList ∨
      cmd.cmd = "window".toList)
    (hhelp : env.help_flag = false) (hval : cmdl.argc ≤ cmdl.optind) :
    cmd_bearer_set_prop env cmd cmdl
        = (-EINVAL, cmdl, [Event.stderr "error, missing value\n"]) ∧
    parsed_opts (cmd_bearer_set_prop env cmd cmdl).2.2 = false ∧
    requests (cmd_bearer_set_prop env cmd cmdl).2.2 = [] := by
  have hprop : ∃ prop, prop_of_cmd cmd = some prop := by
    rcases hp with h | h | h <;> simp [prop_of_cmd, h]
  obtain ⟨prop, hprop⟩ := hprop
  have hrun : cmd_bearer_set_prop env cmd cmdl
      = (-EINVAL, cmdl, [Event.stderr "error, missing value\n"]) := by
    simp [cmd_bearer_set_prop, hprop, hhelp, hval]
  rw [hrun]
  exact ⟨rfl, rfl, rfl⟩

/-- Witness of C9: `bearer set priority` with no further token. -/
theorem set_prop_missing_value_witness :
    cmd_bearer_set_prop Env.sample ⟨"priority".toList, "cmd_bearer_set_help"⟩ (Cmdl.of [])
        = (-EINVAL, Cmdl.of [], [Event.stderr "error, missing value\n"]) ∧
    parsed_opts (cmd_bearer_set_prop Env.sample ⟨"priority".toList, "cmd_bearer_set_help"⟩
        (Cmdl.of [])).2.2 = false ∧
    requests (cmd_bearer_set_prop Env.sample ⟨"priority".toList, "cmd_bearer_set_help"⟩
        (Cmdl.of [])).2.2 = [] :=
  set_prop_missing_value Env.sample ⟨"priority".toList, "cmd_bearer_set_help"⟩ (Cmdl.of [])
    (Or.inl rfl) rfl (Nat.le_refl 0)

/-! ## Help requested -/

/-- Claim C10: when the help flag is set, each bearer leaf command (enable,
disable, set of a property, get of a property, list) returns a negative
status and hands no request to `msg_doit` or `msg_dumpit`, whatever the
arguments, the media and the outcome of option parsing; the UDP resolver of
the enable path does the same, so the network-identifier query is not sent
either. -/
theorem help_never_executes (env : Env) (cmd : Cmd) (cmdl : Cmdl) (nlh : Nlmsg)
    (opts : List Opt) (hhelp : env.help_flag = true) :
    ((cmd_bearer_enable env cmd cmdl).1 < 0 ∧
        requests (cmd_bearer_enable env cmd cmdl).2.2 = []) ∧
    ((cmd_bearer_disable env cmd cmdl).1 < 0 ∧
        requests (cmd_bearer_disable env cmd cmdl).2.2 = []) ∧
    ((cmd_bearer_set_prop env cmd cmdl).1 < 0 ∧
        requests (cmd_bearer_set_prop env cmd cmdl).2.2 = []) ∧
    ((cmd_bearer_get_prop env cmd cmdl).1 < 0 ∧
        requests (cmd_bearer_get_prop env cmd cmdl).2.2 = []) ∧
    ((cmd_bearer_list env cmd cmdl).1 < 0 ∧
        requests (cmd_bearer_list env cmd cmdl).2.2 = []) ∧
    ((enable_udp_bearer env nlh opts).1 < 0 ∧
        requests (enable_udp_bearer env nlh opts).2.2 = []) := by
  refine ⟨?_, ?_, ?_, ?_, ?_, ?_⟩
  · unfold cmd_bearer_enable
    by_cases h1 : (env.parse_opts enable_opts cmdl).1 < 0
    · simp only [h1, hhelp]; simp [requests, EINVAL]
    · cases h2 : get_opt (env.parse_opts enable_opts cmdl).2.1 "media".toList with
      | none => simp only [h1, h2, hhelp]; simp [requests, EINVAL]
      | some media =>
        cases h3 : msg_init env TIPC_NL_BEARER_ENABLE with
        | none => simp only [h1, h2, h3]; simp [requests]
        | some nlh0 =>
          by_cases hu : media = "udp".toList
          · simp only [h1, h2, h3, hu, hhelp]; simp [requests, EINVAL]
          · by_cases he : media = "eth".toList
            · simp only [h1, h2, h3, he, hhelp]; simp [requests, EINVAL]
            · simp only [h1, h2, h3, hu, he, hhelp]; simp [requests, EINVAL]
  · unfold cmd_bearer_disable
    by_cases h1 : (env.parse_opts disable_opts cmdl).1 < 0
    · simp only [h1, hhelp]; simp [requests, EINVAL]
    · cases h2 : get_opt (env.parse_opts disable_opts cmdl).2.1 "media".toList with
      | none => simp only [h1, h2, hhelp]; simp [requests, EINVAL]
      | some media =>
        cases h3 : msg_init env TIPC_NL_BEARER_DISABLE with
        | none => simp only [h1, h2, h3]; simp [requests]
        | some nlh0 =>
          by_cases hu : media = "udp".toList
          · simp only [h1, h2, h3, hu, hhelp]; simp [requests, EINVAL]
          · by_cases he : media = "eth".toList
            · simp only [h1, h2, h3, he, hhelp]; simp [requests, EINVAL]
            · simp only [h1, h2, h3, hu, he, hhelp]; simp [requests, EINVAL]
  · unfold cmd_bearer_set_prop
    cases prop_of_cmd cmd with
    | none => simp [requests, EINVAL]
    | some prop =>
      simp only [hhelp]
      simp only [if_true]
      simp [requests, EINVAL]
  · unfold cmd_bearer_get_prop
    cases prop_of_cmd cmd with
    | none => simp [requests, EINVAL]
    | some prop =>
      simp only [hhelp]
      simp only [if_true]
      simp [requests, EINVAL]
  · simp [cmd_bearer_list, hhelp, requests, EINVAL]
  · simp [enable_udp_bearer, hhelp, requests, EINVAL]

/-- Witness of C10: `bearer enable media udp name myudp localip 10.0.0.1`
with help requested, against the sample kernel. -/
theorem help_never_executes_witness :
    (cmd_bearer_list Env.sample_help ⟨"list".toList, ""⟩ (Cmdl.of [])).1 < 0 ∧
    (cmd_bearer_enable Env.sample_help ⟨"enable".toList, "cmd_bearer_enable_help"⟩
      (Cmdl.of ["media".toList, "udp".toList, "name".toList, "myudp".toList,
        "localip".toList, "10.0.0.1".toList])).1 < 0 ∧
    requests (cmd_bearer_enable Env.sample_help ⟨"enable".toList, "cmd_bearer_enable_help"⟩
      (Cmdl.of ["media".toList, "udp".toList, "name".toList, "myudp".toList,
        "localip".toList, "10.0.0.1".toList])).2.2 = [] :=
  have h := help_never_executes Env.sample_help ⟨"enable".toList, "cmd_bearer_enable_help"⟩
    (Cmdl.of ["media".toList, "udp".toList, "name".toList, "myudp".toList,
      "localip".toList, "10.0.0.1".toList]) ⟨0, []⟩ [] rfl
  ⟨(help_never_executes Env.sample_help ⟨"list".toList, ""⟩ (Cmdl.of []) ⟨0, []⟩ []
      rfl).2.2.2.2.1.1, h.1.1, h.1.2⟩

end Tipc
